import Mathlib

/-!
# A verification model of the janus-ftl-plugin streaming relay core

This file gives a shallow embedding, in Lean, of the media-relay engine of
`src/janus_ftl.c` (the Janus streaming plugin as shipped in this repository):
the per-viewer RTP forwarding routine `janus_streaming_relay_rtp_packet`,
the per-packet processing steps of the mountpoint relay thread
`janus_streaming_relay_thread` (audio / video / data socket events,
keyframe buffering, "buffer last message" handling), the rate-limited PLI
sender `janus_streaming_rtcp_pli_send`, the data-channel readiness callback
`janus_streaming_data_ready`, and the port allocation helpers
`janus_streaming_create_fd` / `janus_streaming_allocate_port_pair`.

Modelling conventions:
* Machine integers are modelled as `Nat` / `Int`; 16-bit wraparound is made
  explicit (`% 65536`) where the C code relies on it (`guint16` sequence
  bases).  Network/host byte order conversions (`ntohl`/`htonl` pairs) cancel
  and header fields are kept in host order.
* Functions of the Janus gateway core that the plugin merely calls
  (`janus_rtp_header_update`, `janus_vp9_is_keyframe`, `janus_rtp_payload`,
  `janus_rtp_simulcasting_context_process_rtp`, the skew compensators) are
  external collaborators: they are passed in as an abstract `Externals`
  record, so every theorem holds for every behaviour of the gateway core.
* Pointer-validity checks (`packet == NULL`, `session->handle == NULL`,
  `gateway != NULL`) are modelled as always-valid; the `packet->length < 1`
  guard is kept.
* Side effects towards the gateway (`relay_rtp`, `relay_data`, scheduling an
  upstream PLI from the simulcast context) are captured as an emitted event
  trace; JSON notification events (`push_event`) carry no plugin state and
  are elided.
-/

namespace JanusFtl

/-- RTP header (`janus_rtp_header`), host byte order; only the fields the
plugin reads or writes are kept. -/
structure RtpHeader where
  markerbit : Bool
  ptype : Nat
  seq_number : Nat
  timestamp : Nat
  ssrc : Nat
deriving DecidableEq, Repr

/-- `janus_rtp_switching_context` from the gateway core.  The plugin touches
`v_base_seq` directly (a `guint16`); all remaining fields are only ever
modified through gateway-core calls and are abstracted as `rest`. -/
structure RtpSwitchingContext where
  v_base_seq : Nat
  rest : Nat
deriving DecidableEq, Repr

/-- `session->context.v_base_seq++` (16-bit increment). -/
def incBaseSeq (c : RtpSwitchingContext) : RtpSwitchingContext :=
  { c with v_base_seq := (c.v_base_seq + 1) % 65536 }

/-- `janus_vp9_svc_info`: the SVC layer description parsed from a VP9
payload. -/
structure SvcInfo where
  spatial_layer : Int
  temporal_layer : Int
  fbit : Bool
  ebit : Bool
  ubit : Bool
  bbit : Bool
deriving DecidableEq, Repr

/-- `janus_videocodec` (subset used by the relay paths). -/
inductive VideoCodec where
  | vp8 | vp9 | h264 | av1 | h265 | noneCodec
deriving DecidableEq, Repr

/-- `janus_streaming_rtp_relay_packet` minus the mutable header buffer
(`packet->data`), which is threaded separately as state because per-viewer
forwarding mutates and restores it. -/
structure RelayPacket where
  length : Int
  is_rtp : Bool
  is_video : Bool
  is_keyframe : Bool
  simulcast : Bool
  ssrc0 : Nat
  ssrc1 : Nat
  ssrc2 : Nat
  codec : VideoCodec
  substream : Int
  timestamp : Nat
  seq_number : Nat
  svc : Bool
  svc_info : SvcInfo
  textdata : Bool
deriving DecidableEq, Repr

/-- `janus_rtp_simulcasting_context` from the gateway core; the plugin reads
the flags below and otherwise treats it opaquely (`rest`). -/
structure SimulcastContext where
  substream : Int
  templayer : Int
  changed_substream : Bool
  changed_temporal : Bool
  need_pli : Bool
  rest : Nat
deriving DecidableEq, Repr

/-- Per-viewer state: the fields of `janus_streaming_session` used by the
embedded operations. -/
structure Session where
  started : Bool
  paused : Bool
  audio : Bool
  video : Bool
  data : Bool
  context : RtpSwitchingContext
  sim_context : SimulcastContext
  vp8_context : Nat
  spatial_layer : Int
  target_spatial_layer : Int
  last_spatial_layer0 : Int
  last_spatial_layer1 : Int
  last_spatial_layer2 : Int
  temporal_layer : Int
  target_temporal_layer : Int
  dataready : Bool
  stopping : Bool
  hangingup : Bool
  destroyed : Bool
deriving DecidableEq, Repr

/-- `session->last_spatial_layer[l]`; reads outside `0..2` (undefined
behaviour in C, reachable only through unvalidated admin requests) are
given the initial value `0`. -/
def Session.lastSpatial (s : Session) (l : Int) : Int :=
  if l = 0 then s.last_spatial_layer0
  else if l = 1 then s.last_spatial_layer1
  else if l = 2 then s.last_spatial_layer2
  else 0

/-- `if(0 <= l && l <= 2) session->last_spatial_layer[l] = now;` -/
def recordLastSpatial (s : Session) (l : Int) (now : Int) : Session :=
  if l = 0 then { s with last_spatial_layer0 := now }
  else if l = 1 then { s with last_spatial_layer1 := now }
  else if l = 2 then { s with last_spatial_layer2 := now }
  else s

/-- Gateway-core collaborators consumed by the plugin, kept abstract.  Each
is a pure function of the data the C call receives (payload-parsing results
are functions of the packet bytes, hence of the packet value). -/
structure Externals where
  /-- `janus_rtp_header_update(hdr, ctx, video, 0)`: rewrites the header's
  sequence number / timestamp from the switching context and updates the
  context. -/
  rtp_header_update : RtpHeader → RtpSwitchingContext → Bool → RtpHeader × RtpSwitchingContext
  /-- `janus_vp9_is_keyframe(janus_rtp_payload(packet), plen)`. -/
  vp9_is_keyframe : RelayPacket → Bool
  /-- whether `janus_rtp_payload(packet, len, &plen)` is non-NULL. -/
  rtp_payload_some : RelayPacket → Bool
  /-- `janus_rtp_simulcasting_context_process_rtp`: returns the relay
  decision and the updated simulcast and switching contexts. -/
  simulcast_process : SimulcastContext → RelayPacket → RtpSwitchingContext →
    Bool × SimulcastContext × RtpSwitchingContext
  /-- `janus_rtp_skew_compensate_audio(hdr, ctx, now)`: returns the drop /
  jump decision and the updated header and context. -/
  skew_audio : RtpHeader → RtpSwitchingContext → Int → Int × RtpHeader × RtpSwitchingContext
  /-- `janus_rtp_skew_compensate_video(hdr, ctx, now)`. -/
  skew_video : RtpHeader → RtpSwitchingContext → Int → Int × RtpHeader × RtpSwitchingContext

/-- Observable effects of one `janus_streaming_relay_rtp_packet` call. -/
inductive RelayEvent where
  /-- `gateway->relay_rtp(session->handle, &rtp)` with the header value the
  gateway observes. -/
  | rtp (video : Bool) (hdr : RtpHeader) (length : Int)
  /-- `gateway->relay_data(session->handle, &data)`. -/
  | dataMsg (textdata : Bool) (length : Int)
  /-- `g_atomic_int_set(&source->need_pli, 1)` requested by the simulcast
  context. -/
  | schedulePli
deriving DecidableEq, Repr

/-- The spatial-layer fallback loop of the SVC path (source lines
7489-7498): starting from the requested layer, step one layer down while
the candidate is above the session's layer, above zero, and has seen no
traffic for 250ms.  The C loop terminates because the candidate strictly
decreases; the fuel is sized in `svcPick` so it never runs out. -/
def svcLoop (last : Int → Int) (now spatial : Int) : Nat → Int → Int
  | 0, new_spatial_layer => new_spatial_layer
  | fuel + 1, new_spatial_layer =>
    if new_spatial_layer > spatial ∧ new_spatial_layer > 0 ∧
        now - last new_spatial_layer ≥ 250000 then
      svcLoop last now spatial fuel (new_spatial_layer - 1)
    else new_spatial_layer

/-- The candidate spatial layer chosen when upscaling (the value of
`new_spatial_layer` after the `while` loop). -/
def svcPick (last : Int → Int) (now spatial target : Int) : Int :=
  svcLoop last now spatial (target.toNat + 1) target

/-- Spatial-layer half of the SVC path (source lines 7479-7544): records
traffic for the packet's layer, then performs the upscale / downscale
decision.  Returns the updated session, the value of the local variable
`spatial_layer` used by the drop test, and the VP9 keyframe flag. -/
def svcSpatialPhase (E : Externals) (now : Int) (session : Session) (packet : RelayPacket) :
    Session × Int × Bool :=
  let keyframe := E.vp9_is_keyframe packet
  let spatial_layer := session.spatial_layer
  let s := recordLastSpatial session packet.svc_info.spatial_layer now
  if s.target_spatial_layer > s.spatial_layer then
    if keyframe then
      let new_spatial_layer :=
        svcPick s.lastSpatial now s.spatial_layer s.target_spatial_layer
      if new_spatial_layer > s.spatial_layer then
        -- upscale; if the temporal layer was still -1 it is initialized to 0
        ({ s with spatial_layer := new_spatial_layer,
                  temporal_layer := if s.temporal_layer = -1 then 0 else s.temporal_layer },
         new_spatial_layer, keyframe)
      else (s, spatial_layer, keyframe)
    else (s, spatial_layer, keyframe)
  else if s.target_spatial_layer < s.spatial_layer then
    let downscaled := (!packet.svc_info.fbit && keyframe) ||
      (packet.svc_info.fbit && packet.svc_info.ebit)
    if downscaled then
      -- note: the local variable `spatial_layer` keeps the pre-downscale value
      ({ s with spatial_layer := s.target_spatial_layer }, spatial_layer, keyframe)
    else (s, spatial_layer, keyframe)
  else (s, spatial_layer, keyframe)

/-- Temporal-layer half of the SVC path (source lines 7554-7592). Returns
the updated session and the local variable `temporal_layer` used by the
drop test (not updated by a downscale, mirroring the source). -/
def svcTemporalPhase (session : Session) (packet : RelayPacket) : Session × Int :=
  let temporal_layer := session.temporal_layer
  if session.target_temporal_layer > session.temporal_layer then
    if packet.svc_info.ubit ∧ packet.svc_info.bbit ∧
        packet.svc_info.temporal_layer > session.temporal_layer ∧
        packet.svc_info.temporal_layer ≤ session.target_temporal_layer then
      ({ session with temporal_layer := packet.svc_info.temporal_layer },
       packet.svc_info.temporal_layer)
    else (session, temporal_layer)
  else if session.target_temporal_layer < session.temporal_layer then
    if packet.svc_info.ebit ∧ packet.svc_info.temporal_layer = session.target_temporal_layer then
      ({ session with temporal_layer := session.target_temporal_layer }, temporal_layer)
    else (session, temporal_layer)
  else (session, temporal_layer)

/-- SVC (VP9) forwarding path of `janus_streaming_relay_rtp_packet`
(source lines 7471-7617). -/
def svcPath (E : Externals) (now : Int) (session : Session) (packet : RelayPacket)
    (hdr : RtpHeader) : Session × RtpHeader × List RelayEvent :=
  let has_marker_bit := hdr.markerbit
  let ph := svcSpatialPhase E now session packet
  let s1 := ph.1
  let spatial_layer := ph.2.1
  if spatial_layer < packet.svc_info.spatial_layer then
    -- drop, but keep the per-viewer sequence numbering contiguous
    ({ s1 with context := incBaseSeq s1.context }, hdr, [])
  else
    let override_mark_bit :=
      packet.svc_info.ebit && (spatial_layer == packet.svc_info.spatial_layer)
    let tp := svcTemporalPhase s1 packet
    let s2 := tp.1
    let temporal_layer := tp.2
    if temporal_layer < packet.svc_info.temporal_layer then
      ({ s2 with context := incBaseSeq s2.context }, hdr, [])
    else
      let u := E.rtp_header_update hdr s2.context true
      let s3 := { s2 with context := u.2 }
      let h2 := if override_mark_bit && !has_marker_bit then
          { u.1 with markerbit := true } else u.1
      let ev := RelayEvent.rtp true h2 packet.length
      let h3 := if override_mark_bit && !has_marker_bit then
          { h2 with markerbit := false } else h2
      (s3, { h3 with timestamp := packet.timestamp, seq_number := packet.seq_number }, [ev])

/-- Simulcast forwarding path of `janus_streaming_relay_rtp_packet`
(source lines 7618-7680).  The VP8 payload-descriptor rewrite/restore
affects payload bytes only, not the header fields modelled here. -/
def simulcastPath (E : Externals) (session : Session) (packet : RelayPacket)
    (hdr : RtpHeader) : Session × RtpHeader × List RelayEvent :=
  if !E.rtp_payload_some packet then (session, hdr, [])
  else
    let pr := E.simulcast_process session.sim_context packet session.context
    let relay := pr.1
    let s1 := { session with sim_context := pr.2.1, context := pr.2.2 }
    let pliEvents := if s1.sim_context.need_pli then [RelayEvent.schedulePli] else []
    if !relay then (s1, hdr, pliEvents)
    else
      let u := E.rtp_header_update hdr s1.context true
      let s2 := { s1 with context := u.2 }
      (s2, { u.1 with timestamp := packet.timestamp, seq_number := packet.seq_number },
       pliEvents ++ [RelayEvent.rtp true u.1 packet.length])

/-- `janus_streaming_relay_rtp_packet` (source lines 7449-7722): the
per-viewer forwarding decision, applied to one session with the shared
packet header `hdr` threaded as state. -/
def janus_streaming_relay_rtp_packet (E : Externals) (now : Int) (session : Session)
    (packet : RelayPacket) (hdr : RtpHeader) : Session × RtpHeader × List RelayEvent :=
  if packet.length < 1 then (session, hdr, [])
  else if !packet.is_keyframe && (!session.started || session.paused) then
    (session, hdr, [])
  else if packet.is_rtp then
    if packet.is_video then
      if !session.video then (session, hdr, [])
      else if packet.svc then svcPath E now session packet hdr
      else if packet.simulcast then simulcastPath E session packet hdr
      else
        let u := E.rtp_header_update hdr session.context true
        ({ session with context := u.2 },
         { u.1 with timestamp := packet.timestamp, seq_number := packet.seq_number },
         [RelayEvent.rtp true u.1 packet.length])
    else
      if !session.audio then (session, hdr, [])
      else
        let u := E.rtp_header_update hdr session.context false
        ({ session with context := u.2 },
         { u.1 with timestamp := packet.timestamp, seq_number := packet.seq_number },
         [RelayEvent.rtp false u.1 packet.length])
  else
    -- data-channel broadcast
    if !session.data then (session, hdr, [])
    else if session.dataready then
      (session, hdr, [RelayEvent.dataMsg packet.textdata packet.length])
    else (session, hdr, [])

/-! ## The relay thread (`janus_streaming_relay_thread`) per-packet steps -/

/-- A packet stored in the keyframe buffer (source lines 7161-7172 /
7209-7220): a private copy of the buffer bytes (abstracted as `payload`)
with the group timestamp and the packet's sequence number. -/
structure KfPacket where
  payload : Nat
  timestamp : Nat
  seq_number : Nat
deriving DecidableEq, Repr

/-- Mountpoint fields read or written by the relay thread's packet steps. -/
structure MountpointState where
  enabled : Bool
  active : Bool
deriving DecidableEq, Repr

/-- `janus_streaming_rtp_source` fields used by the embedded operations. -/
structure SourceState where
  context0 : RtpSwitchingContext
  context1 : RtpSwitchingContext
  context2 : RtpSwitchingContext
  last_received_audio : Int
  last_received_video : Int
  last_received_data : Int
  rtp_collision : Int
  audio_ssrc : Nat
  video_ssrc : Nat
  askew : Bool
  vskew : Bool
  is_srtp : Bool
  keyframe_enabled : Bool
  keyframe_temp_ts : Nat
  keyframe_temp : List KfPacket
  keyframe_latest : Option (List KfPacket)
  buffermsg : Bool
  textdata : Bool
  last_msg : Option (List Nat)
  arc : Bool
  vrc : Bool
  drc : Bool
  video_rtcp_fd : Int
  video_rtcp_addr_valid : Bool
  sending_pli : Bool
  need_pli : Bool
  pli_latest : Int
deriving DecidableEq, Repr

/-- `source->context[index]`. -/
def SourceState.ctxAt (src : SourceState) (index : Nat) : RtpSwitchingContext :=
  if index = 0 then src.context0 else if index = 1 then src.context1 else src.context2

/-- write back `source->context[index]`. -/
def SourceState.setCtxAt (src : SourceState) (index : Nat) (c : RtpSwitchingContext) :
    SourceState :=
  if index = 0 then { src with context0 := c }
  else if index = 1 then { src with context1 := c }
  else { src with context2 := c }

/-- One audio packet read from the audio socket: the `recvfrom` byte count,
the `janus_is_rtp` well-formedness bit, the parsed header, and the SRTP
unprotect outcome for this ciphertext. -/
structure AudioIn where
  bytes : Int
  wf : Bool
  hdr : RtpHeader
  srtp_ok : Bool
deriving DecidableEq, Repr

/-- The anti-glitch SSRC collision guard for audio (source lines
7020-7024). -/
def audioCollision (src : SourceState) (a_last_ssrc : Nat) (ssrc : Nat) (now : Int) : Prop :=
  0 < src.rtp_collision ∧ a_last_ssrc ≠ 0 ∧ ssrc ≠ a_last_ssrc ∧
    now - src.last_received_audio < 1000 * src.rtp_collision

instance (src : SourceState) (a : Nat) (ssrc : Nat) (now : Int) :
    Decidable (audioCollision src a ssrc now) := by
  unfold audioCollision; infer_instance

/-- Result of one audio-socket event. -/
structure AudioStepResult where
  mp : MountpointState
  src : SourceState
  a_last_ssrc : Nat
  recorded : Bool
  fanout : Bool
deriving DecidableEq, Repr

/-- Audio branch of the relay thread (source lines 7004-7088): collision
guard, liveness timestamp, SSRC tracking, SRTP unprotect, source-side
header rewrite, skew compensation, recording, and — only when the
mountpoint is enabled — fan-out to the viewers (or helper queues). -/
def relayThreadAudioStep (E : Externals) (now : Int) (mp : MountpointState)
    (src : SourceState) (a_last_ssrc : Nat) (inp : AudioIn) : AudioStepResult :=
  let mp := { mp with active := true }
  if inp.bytes < 0 ∨ inp.wf = false then ⟨mp, src, a_last_ssrc, false, false⟩
  else
    let ssrc := inp.hdr.ssrc
    if audioCollision src a_last_ssrc ssrc now then ⟨mp, src, a_last_ssrc, false, false⟩
    else
      let src := { src with last_received_audio := now }
      let src := if ssrc ≠ a_last_ssrc then { src with audio_ssrc := ssrc } else src
      let a_last_ssrc := if ssrc ≠ a_last_ssrc then ssrc else a_last_ssrc
      if mp.enabled = false ∧ src.arc = false then ⟨mp, src, a_last_ssrc, false, false⟩
      else if src.is_srtp ∧ inp.srtp_ok = false then ⟨mp, src, a_last_ssrc, false, false⟩
      else
        let u := E.rtp_header_update inp.hdr src.context0 false
        let src := { src with context0 := u.2 }
        if src.askew then
          let k := E.skew_audio u.1 src.context0 now
          let src := { src with context0 := k.2.2 }
          if k.1 < 0 then ⟨mp, src, a_last_ssrc, false, false⟩
          else ⟨mp, src, a_last_ssrc, src.arc, mp.enabled⟩
        else ⟨mp, src, a_last_ssrc, src.arc, mp.enabled⟩

/-- One video packet read from a video socket (`index` selects which of the
three simulcast sockets); `payload_some`/`kf` are the payload-parse and
codec-specific keyframe-detection results for these bytes, `payload` an
abstract identifier of the buffer copy. -/
structure VideoIn where
  index : Nat
  bytes : Int
  wf : Bool
  hdr : RtpHeader
  srtp_ok : Bool
  payload_some : Bool
  kf : Bool
  payload : Nat
deriving DecidableEq, Repr

/-- The SSRC collision guard for video (source lines 7114-7119). -/
def videoCollision (src : SourceState) (v_last : Nat) (ssrc : Nat) (now : Int) : Prop :=
  0 < src.rtp_collision ∧ v_last ≠ 0 ∧ ssrc ≠ v_last ∧
    now - src.last_received_video < 1000 * src.rtp_collision

instance (src : SourceState) (v : Nat) (ssrc : Nat) (now : Int) :
    Decidable (videoCollision src v ssrc now) := by
  unfold videoCollision; infer_instance

/-- Keyframe-buffer update for one incoming video packet (source lines
7145-7225): complete the in-progress group when a different timestamp
arrives (installing it as `latest_keyframe` under the keyframe mutex),
append to the in-progress group on a matching timestamp, else start a new
group when the packet parses as a keyframe. -/
def kfUpdate (src : SourceState) (inp : VideoIn) : SourceState :=
  if src.keyframe_temp_ts > 0 ∧ inp.hdr.timestamp ≠ src.keyframe_temp_ts then
    { src with keyframe_temp_ts := 0,
               keyframe_latest := some src.keyframe_temp,
               keyframe_temp := [] }
  else if inp.hdr.timestamp = src.keyframe_temp_ts then
    { src with keyframe_temp := src.keyframe_temp ++
        [⟨inp.payload, src.keyframe_temp_ts, inp.hdr.seq_number⟩] }
  else if inp.payload_some ∧ inp.kf then
    { src with keyframe_temp_ts := inp.hdr.timestamp,
               keyframe_temp := src.keyframe_temp ++
                 [⟨inp.payload, inp.hdr.timestamp, inp.hdr.seq_number⟩] }
  else src

/-- Result of one video-socket event (`v0`/`v1`/`v2` are the thread-local
`v_last_ssrc` values). -/
structure VideoStepResult where
  mp : MountpointState
  src : SourceState
  v0 : Nat
  v1 : Nat
  v2 : Nat
  recorded : Bool
  fanout : Bool
deriving DecidableEq, Repr

/-- `v_last_ssrc[index]`. -/
def vLastAt (v0 v1 v2 : Nat) (index : Nat) : Nat :=
  if index = 0 then v0 else if index = 1 then v1 else v2

/-- Video branch of the relay thread (source lines 7089-7289). -/
def relayThreadVideoStep (E : Externals) (now : Int) (mp : MountpointState)
    (src : SourceState) (v0 v1 v2 : Nat) (inp : VideoIn) : VideoStepResult :=
  let mp := { mp with active := true }
  if inp.bytes < 0 ∨ inp.wf = false then ⟨mp, src, v0, v1, v2, false, false⟩
  else
    let ssrc := inp.hdr.ssrc
    if videoCollision src (vLastAt v0 v1 v2 inp.index) ssrc now then
      ⟨mp, src, v0, v1, v2, false, false⟩
    else
      let src := { src with last_received_video := now }
      let newStream := ssrc ≠ vLastAt v0 v1 v2 inp.index
      let v0 := if newStream ∧ inp.index = 0 then ssrc else v0
      let v1 := if newStream ∧ inp.index = 1 then ssrc else v1
      let v2 := if newStream ∧ inp.index = 2 then ssrc else v2
      let src := if newStream ∧ inp.index = 0 then { src with video_ssrc := ssrc } else src
      if src.is_srtp ∧ inp.srtp_ok = false then ⟨mp, src, v0, v1, v2, false, false⟩
      else
        let src := if src.keyframe_enabled then kfUpdate src inp else src
        if mp.enabled = false ∧ src.vrc = false then ⟨mp, src, v0, v1, v2, false, false⟩
        else
          -- relay-packet assembly and the VP9 SVC parse read the buffer only;
          -- the source-side header rewrite and skew compensation update context[index]
          let u := E.rtp_header_update inp.hdr (src.ctxAt inp.index) true
          let src := src.setCtxAt inp.index u.2
          if src.vskew then
            let k := E.skew_video u.1 (src.ctxAt inp.index) now
            let src := src.setCtxAt inp.index k.2.2
            if k.1 < 0 then ⟨mp, src, v0, v1, v2, false, false⟩
            else ⟨mp, src, v0, v1, v2, inp.index = 0 ∧ src.vrc, mp.enabled⟩
          else ⟨mp, src, v0, v1, v2, inp.index = 0 ∧ src.vrc, mp.enabled⟩

/-- One datagram read from the data socket. -/
structure DataIn where
  bytes : Int
  msg : List Nat
deriving DecidableEq, Repr

/-- Result of one data-socket event. -/
structure DataStepResult where
  mp : MountpointState
  src : SourceState
  recorded : Bool
  fanout : Bool
deriving DecidableEq, Repr

/-- Data branch of the relay thread (source lines 7290-7336).  In the
`buffermsg` block (source lines 7317-7326) the code allocates a relay
packet, copies the message into it and takes `buffermsg_mutex` — but the
copy is never stored into `source->last_msg` (and the stray
`packet.is_rtp = FALSE;` line touches the stack packet instead of the
copy), so `last_msg` is left unchanged; the embedding mirrors that. -/
def relayThreadDataStep (now : Int) (mp : MountpointState) (src : SourceState)
    (inp : DataIn) : DataStepResult :=
  let mp := { mp with active := true }
  let src := { src with last_received_data := now }
  if inp.bytes < 1 then ⟨mp, src, false, false⟩
  else if mp.enabled = false ∧ src.drc = false then ⟨mp, src, false, false⟩
  else
    -- janus_recorder_save_frame is called unconditionally; it is a no-op on
    -- a NULL recorder, so a frame is recorded exactly when `drc` is present
    let recorded := src.drc
    if mp.enabled then
      -- buffermsg block: the copy of `inp.msg` is built and then dropped
      ⟨mp, src, recorded, true⟩
    else ⟨mp, src, recorded, false⟩

/-! ## PLI rate limiting (`janus_streaming_rtcp_pli_send`) -/

/-- `janus_streaming_rtcp_pli_send` (source lines 800-830).  `now` is the
first `janus_get_monotonic_time()` read (the throttle comparison), `now2`
the second one (stored into `pli_latest` on an actual send); the
`sending_pli` compare-and-swap is taken and released within the call, so
its net effect on the field is `false` on every path that started from
`false`.  Returns the updated source and whether a PLI was sent. -/
def janus_streaming_rtcp_pli_send (src : SourceState) (now now2 : Int) :
    SourceState × Bool :=
  if src.video_rtcp_fd < 0 ∨ src.video_rtcp_addr_valid = false then (src, false)
  else if src.sending_pli then (src, false)
  else if now - src.pli_latest < 1000000 then
    ({ src with need_pli := true }, false)
  else
    ({ src with need_pli := false, pli_latest := now2 }, true)

/-- The relay thread's housekeeping check (source lines 6868-6870): resend
a coalesced PLI when the `need_pli` flag is set. -/
def relayThreadPliCheck (src : SourceState) (now now2 : Int) : SourceState × Bool :=
  if src.need_pli then janus_streaming_rtcp_pli_send src now now2 else (src, false)

/-! ## Data-channel readiness (`janus_streaming_data_ready`) -/

/-- `janus_streaming_data_ready` (source lines 3757-3768): once the data
channel is writable, `dataready` is compare-and-swapped from 0 to 1 (so it
only ever rises, and at most once per connection — it is reset only by
`janus_streaming_hangup_media_internal` when the connection ends). -/
def janus_streaming_data_ready (session : Session) : Session :=
  if session.destroyed ∨ session.hangingup then session
  else { session with dataready := true }

/-! ## Port allocation (`janus_streaming_create_fd`,
`janus_streaming_allocate_port_pair`) -/

/-- The port-range scan of `janus_streaming_create_fd` with `port == 0`
(source lines 4697-4837, range branch): try the current slider port,
advance (wrapping at `rtp_range_max` back to `rtp_range_min`), and stop
with failure once the scan has wrapped and reached its start again.
`bindOk p` abstracts a successful socket `bind` to port `p`.  The C loop
terminates by the wrap check; the fuel is sized by the caller so it never
runs out. -/
def createFdScan (bindOk : Nat → Bool) (rmin rmax : Nat) :
    Nat → Nat → Nat → Bool → Option Nat
  | 0, _, _, _ => none
  | fuel + 1, next, start, wrap =>
    if wrap = true ∧ next ≥ start then none
    else
      let port := next
      let next2 := if next < rmax then next + 1 else rmin
      let wrap2 := if next < rmax then wrap else true
      if bindOk port then some port
      else createFdScan bindOk rmin rmax fuel next2 start wrap2

/-- `janus_streaming_create_fd` (source lines 4685-4840), for a non-multicast
listener with no interface restriction (the multicast/iface branches fail
fast on setsockopt errors and do not affect port selection).  With
`port = 0` the scan starts at the global slider and, on success, the slider
is updated to the realized port (line 4834); with an explicit port a single
bind is attempted and failure is final (line 4830).  Returns the realized
port (or `none`) and the updated slider. -/
def janus_streaming_create_fd (bindOk : Nat → Bool) (rmin rmax slider : Nat)
    (port : Nat) : Option Nat × Nat :=
  if port = 0 then
    match createFdScan bindOk rmin rmax (rmax + 2) slider slider false with
    | some p => (some p, p)
    | none => (none, slider)
  else
    (if bindOk port then some port else none, slider)

/-- The pair scan of `janus_streaming_allocate_port_pair` (source lines
4852-4885): candidates advance two ports at a time (RTP on the even port,
RTCP on the next), wrapping to `rtp_range_min` when `next + 2` is not
below `rtp_range_max`.  On success also returns the advanced slider value
stored back into the global (line 4878). -/
def allocatePairScan (bindOk : Nat → Bool) (rmin rmax : Nat) :
    Nat → Nat → Nat → Bool → Option (Nat × Nat × Nat)
  | 0, _, _, _ => none
  | fuel + 1, next, start, wrap =>
    if wrap = true ∧ next ≥ start then none
    else
      let rtp_port := next
      let rtcp_port := next + 1
      let next2 := if next + 2 < rmax then next + 2 else rmin
      let wrap2 := if next + 2 < rmax then wrap else true
      if bindOk rtp_port && bindOk rtcp_port then some (rtp_port, rtcp_port, next2)
      else allocatePairScan bindOk rmin rmax fuel next2 start wrap2

/-- `janus_streaming_allocate_port_pair` (source lines 4842-4887): start
from the global slider rounded up to an even port, and scan RTP/RTCP pairs.
Returns `(rtp_port, rtcp_port, new_slider)` on success. -/
def janus_streaming_allocate_port_pair (bindOk : Nat → Bool) (rmin rmax slider : Nat) :
    Option (Nat × Nat × Nat) :=
  let start := if slider % 2 = 0 then slider else slider + 1
  allocatePairScan bindOk rmin rmax (rmax + 4) start start false

/-! ## Derived values used in theorem statements -/

/-- The switching context in effect when `janus_rtp_header_update` rewrites
the shared header for one viewer: the session's context, except on the
simulcast path where `janus_rtp_simulcasting_context_process_rtp` has
already updated it. -/
def rewriteContextUsed (E : Externals) (s : Session) (p : RelayPacket) :
    RtpSwitchingContext :=
  if p.is_video = true ∧ p.svc = false ∧ p.simulcast = true then
    (E.simulcast_process s.sim_context p s.context).2.2
  else s.context

/-! ## Concrete instances used by the evaluation witnesses -/

/-- A concrete gateway-core instance: the header rewrite offsets the
sequence number by the context's base and bumps the timestamp, so that
rewritten and original values are visibly different in the witnesses. -/
def extW : Externals where
  rtp_header_update := fun h c _ =>
    ({ h with seq_number := (h.seq_number + c.v_base_seq + 11) % 65536,
              timestamp := h.timestamp + 7 },
     { c with rest := c.rest + 1 })
  vp9_is_keyframe := fun p => p.is_keyframe
  rtp_payload_some := fun _ => true
  simulcast_process := fun sc p c => (p.substream == sc.substream, sc, c)
  skew_audio := fun h c _ => (0, h, c)
  skew_video := fun h c _ => (0, h, c)

/-- A baseline viewer session for the witnesses. -/
def sessW : Session where
  started := true
  paused := false
  audio := true
  video := true
  data := true
  context := ⟨3, 0⟩
  sim_context := ⟨0, 0, false, false, false, 0⟩
  vp8_context := 0
  spatial_layer := 0
  target_spatial_layer := 0
  last_spatial_layer0 := 0
  last_spatial_layer1 := 0
  last_spatial_layer2 := 0
  temporal_layer := 0
  target_temporal_layer := 0
  dataready := true
  stopping := false
  hangingup := false
  destroyed := false

/-- A baseline video RTP packet for the witnesses. -/
def pktW : RelayPacket where
  length := 100
  is_rtp := true
  is_video := true
  is_keyframe := false
  simulcast := false
  ssrc0 := 0
  ssrc1 := 0
  ssrc2 := 0
  codec := VideoCodec.vp9
  substream := 0
  timestamp := 5000
  seq_number := 42
  svc := false
  svc_info := ⟨0, 0, false, false, false, false⟩
  textdata := false

/-- The shared buffer header as it enters the fan-out (its timestamp and
sequence number are the packet's backed-up originals). -/
def hdrW : RtpHeader := ⟨false, 96, 42, 5000, 1234⟩

/-- A baseline RTP source for the witnesses. -/
def srcW : SourceState where
  context0 := ⟨0, 0⟩
  context1 := ⟨0, 0⟩
  context2 := ⟨0, 0⟩
  last_received_audio := 0
  last_received_video := 0
  last_received_data := 0
  rtp_collision := 0
  audio_ssrc := 0
  video_ssrc := 0
  askew := false
  vskew := false
  is_srtp := false
  keyframe_enabled := true
  keyframe_temp_ts := 0
  keyframe_temp := []
  keyframe_latest := none
  buffermsg := true
  textdata := true
  last_msg := none
  arc := false
  vrc := false
  drc := false
  video_rtcp_fd := 1
  video_rtcp_addr_valid := true
  sending_pli := false
  need_pli := false
  pli_latest := 0

/-- A concrete bind environment for the port-allocation witnesses: every
port from 13 upwards is free. -/
def bindW : Nat → Bool := fun p => decide (13 ≤ p)

/-! ## Helper lemmas -/

theorem recordLastSpatial_context (s : Session) (l now : Int) :
    (recordLastSpatial s l now).context = s.context := by
  unfold recordLastSpatial
  repeat' split
  all_goals rfl

theorem svcSpatialPhase_context (E : Externals) (now : Int) (s : Session)
    (p : RelayPacket) : (svcSpatialPhase E now s p).1.context = s.context := by
  simp only [svcSpatialPhase]
  repeat' split
  all_goals simp [recordLastSpatial_context]

theorem svcTemporalPhase_context (s : Session) (p : RelayPacket) :
    (svcTemporalPhase s p).1.context = s.context := by
  unfold svcTemporalPhase
  repeat' split
  all_goals rfl

/-- C1, SVC branch: drops emit nothing, and a relayed header carries the
rewrite of the entry header under the session's context; afterwards the
buffer's timestamp/sequence are the packet's originals. -/
theorem svcPath_restore (E : Externals) (now : Int) (s : Session) (p : RelayPacket)
    (hdr : RtpHeader) (v : Bool) (h : RtpHeader) (l : Int)
    (hmem : RelayEvent.rtp v h l ∈ (svcPath E now s p hdr).2.2) :
    (svcPath E now s p hdr).2.1.timestamp = p.timestamp ∧
    (svcPath E now s p hdr).2.1.seq_number = p.seq_number ∧
    h.timestamp = (E.rtp_header_update hdr s.context true).1.timestamp ∧
    h.seq_number = (E.rtp_header_update hdr s.context true).1.seq_number := by
  have hctx : (svcTemporalPhase (svcSpatialPhase E now s p).1 p).1.context = s.context := by
    rw [svcTemporalPhase_context, svcSpatialPhase_context]
  by_cases h1 : (svcSpatialPhase E now s p).2.1 < p.svc_info.spatial_layer
  · simp only [svcPath, if_pos h1] at hmem
    simp at hmem
  · by_cases h2 :
      (svcTemporalPhase (svcSpatialPhase E now s p).1 p).2 < p.svc_info.temporal_layer
    · simp only [svcPath, if_neg h1, if_pos h2] at hmem
      simp at hmem
    · simp only [svcPath, if_neg h1, if_neg h2] at hmem ⊢
      rw [hctx] at hmem
      simp only [List.mem_singleton, RelayEvent.rtp.injEq] at hmem
      obtain ⟨-, hh, -⟩ := hmem
      subst hh
      refine ⟨by trivial, by trivial, ?_, ?_⟩ <;> (split <;> simp)

/-- C1, simulcast branch: a relayed header carries the rewrite of the entry
header under the context updated by the simulcast processor, and the shared
buffer is restored afterwards. -/
theorem simulcastPath_restore (E : Externals) (s : Session) (p : RelayPacket)
    (hdr : RtpHeader) (v : Bool) (h : RtpHeader) (l : Int)
    (hmem : RelayEvent.rtp v h l ∈ (simulcastPath E s p hdr).2.2) :
    (simulcastPath E s p hdr).2.1.timestamp = p.timestamp ∧
    (simulcastPath E s p hdr).2.1.seq_number = p.seq_number ∧
    h.timestamp =
      (E.rtp_header_update hdr (E.simulcast_process s.sim_context p s.context).2.2
        true).1.timestamp ∧
    h.seq_number =
      (E.rtp_header_update hdr (E.simulcast_process s.sim_context p s.context).2.2
        true).1.seq_number := by
  by_cases hp : (!E.rtp_payload_some p) = true
  · simp only [simulcastPath, if_pos hp] at hmem
    simp at hmem
  · by_cases hr : (!(E.simulcast_process s.sim_context p s.context).1) = true
    · simp only [simulcastPath, if_neg hp, if_pos hr] at hmem
      split at hmem <;> simp at hmem
    · simp only [simulcastPath, if_neg hp, if_neg hr, List.mem_append,
        List.mem_singleton, RelayEvent.rtp.injEq] at hmem ⊢
      rcases hmem with hmem | hmem
      · split at hmem <;> simp at hmem
      · obtain ⟨-, hh, -⟩ := hmem
        subst hh
        refine ⟨by trivial, by trivial, rfl, rfl⟩

/-- C1: for every RTP packet forwarded to a viewer, the relay call observes
the header carrying that viewer's rewritten sequence number and timestamp
(the output of `janus_rtp_header_update` under the context in effect), and
after `janus_streaming_relay_rtp_packet` returns, the shared buffer's header
timestamp and sequence number equal the packet's original values saved in
the RelayPacket (`packet->timestamp`, `packet->seq_number`), so the next
viewer sees the unmodified header. -/
theorem relay_rtp_round_trip_restore (E : Externals) (now : Int) (s : Session)
    (p : RelayPacket) (hdr : RtpHeader) (v : Bool) (h : RtpHeader) (l : Int)
    (hrtp : p.is_rtp = true)
    (hmem : RelayEvent.rtp v h l ∈ (janus_streaming_relay_rtp_packet E now s p hdr).2.2) :
    (janus_streaming_relay_rtp_packet E now s p hdr).2.1.timestamp = p.timestamp ∧
    (janus_streaming_relay_rtp_packet E now s p hdr).2.1.seq_number = p.seq_number ∧
    h.timestamp = (E.rtp_header_update hdr (rewriteContextUsed E s p) p.is_video).1.timestamp ∧
    h.seq_number = (E.rtp_header_update hdr (rewriteContextUsed E s p) p.is_video).1.seq_number := by
  simp only [janus_streaming_relay_rtp_packet] at hmem ⊢
  by_cases hl : p.length < 1
  · rw [if_pos hl] at hmem
    simp at hmem
  · rw [if_neg hl] at hmem ⊢
    by_cases hk : (!p.is_keyframe && (!s.started || s.paused)) = true
    · rw [if_pos hk] at hmem
      simp at hmem
    · rw [if_neg hk] at hmem ⊢
      rw [if_pos hrtp] at hmem ⊢
      by_cases hv : p.is_video = true
      · rw [if_pos hv] at hmem ⊢
        by_cases hsv : (!s.video) = true
        · rw [if_pos hsv] at hmem
          simp at hmem
        · rw [if_neg hsv] at hmem ⊢
          by_cases hsvc : p.svc = true
          · rw [if_pos hsvc] at hmem ⊢
            have hctxu : rewriteContextUsed E s p = s.context := by
              simp [rewriteContextUsed, hsvc]
            rw [hctxu, hv]
            exact svcPath_restore E now s p hdr v h l hmem
          · rw [if_neg hsvc] at hmem ⊢
            have hsvcf : p.svc = false := by simpa using hsvc
            by_cases hsim : p.simulcast = true
            · rw [if_pos hsim] at hmem ⊢
              have hctxu : rewriteContextUsed E s p =
                  (E.simulcast_process s.sim_context p s.context).2.2 := by
                simp [rewriteContextUsed, hv, hsvcf, hsim]
              rw [hctxu, hv]
              exact simulcastPath_restore E s p hdr v h l hmem
            · rw [if_neg hsim] at hmem ⊢
              have hsimf : p.simulcast = false := by simpa using hsim
              have hctxu : rewriteContextUsed E s p = s.context := by
                simp [rewriteContextUsed, hsimf]
              rw [hctxu, hv]
              simp only [List.mem_singleton, RelayEvent.rtp.injEq] at hmem
              obtain ⟨-, hh, -⟩ := hmem
              subst hh
              refine ⟨by simp, by simp, rfl, rfl⟩
      · rw [if_neg hv] at hmem ⊢
        have hvf : p.is_video = false := by simpa using hv
        by_cases hsa : (!s.audio) = true
        · rw [if_pos hsa] at hmem
          simp at hmem
        · rw [if_neg hsa] at hmem ⊢
          have hctxu : rewriteContextUsed E s p = s.context := by
            simp [rewriteContextUsed, hvf]
          rw [hctxu, hvf]
          simp only [List.mem_singleton, RelayEvent.rtp.injEq] at hmem
          obtain ⟨-, hh, -⟩ := hmem
          subst hh
          refine ⟨by simp, by simp, rfl, rfl⟩

/-- Evaluation witness for `relay_rtp_round_trip_restore` at a concrete
viewer, packet and gateway instance. -/
theorem relay_rtp_round_trip_restore_witness :
    (janus_streaming_relay_rtp_packet extW 0 sessW pktW hdrW).2.1.timestamp = pktW.timestamp ∧
    (janus_streaming_relay_rtp_packet extW 0 sessW pktW hdrW).2.1.seq_number = pktW.seq_number ∧
    (⟨false, 96, 56, 5007, 1234⟩ : RtpHeader).timestamp =
      (extW.rtp_header_update hdrW (rewriteContextUsed extW sessW pktW)
        pktW.is_video).1.timestamp ∧
    (⟨false, 96, 56, 5007, 1234⟩ : RtpHeader).seq_number =
      (extW.rtp_header_update hdrW (rewriteContextUsed extW sessW pktW)
        pktW.is_video).1.seq_number :=
  relay_rtp_round_trip_restore extW 0 sessW pktW hdrW true ⟨false, 96, 56, 5007, 1234⟩ 100
    (by decide) (by decide)

/-! ### The started/paused flags do not influence the forwarding body -/

theorem recordLastSpatial_sp (s : Session) (l now : Int) (b c : Bool) :
    recordLastSpatial { s with started := b, paused := c } l now =
      { recordLastSpatial s l now with started := b, paused := c } := by
  unfold recordLastSpatial
  repeat' split
  all_goals rfl

theorem lastSpatial_sp (s : Session) (b c : Bool) :
    Session.lastSpatial { s with started := b, paused := c } = Session.lastSpatial s := by
  funext l
  rfl

theorem svcSpatialPhase_sp (E : Externals) (now : Int) (s : Session) (p : RelayPacket)
    (b c : Bool) :
    svcSpatialPhase E now { s with started := b, paused := c } p =
      ({ (svcSpatialPhase E now s p).1 with started := b, paused := c },
       (svcSpatialPhase E now s p).2) := by
  simp only [svcSpatialPhase, recordLastSpatial_sp, lastSpatial_sp]
  repeat' split
  all_goals rfl

theorem svcTemporalPhase_sp (s : Session) (p : RelayPacket) (b c : Bool) :
    svcTemporalPhase { s with started := b, paused := c } p =
      ({ (svcTemporalPhase s p).1 with started := b, paused := c },
       (svcTemporalPhase s p).2) := by
  simp only [svcTemporalPhase]
  repeat' split
  all_goals rfl

theorem svcPath_sp (E : Externals) (now : Int) (s : Session) (p : RelayPacket)
    (hdr : RtpHeader) (b c : Bool) :
    (svcPath E now { s with started := b, paused := c } p hdr).1 =
      { (svcPath E now s p hdr).1 with started := b, paused := c } ∧
    (svcPath E now { s with started := b, paused := c } p hdr).2 =
      (svcPath E now s p hdr).2 := by
  simp only [svcPath, svcSpatialPhase_sp, svcTemporalPhase_sp]
  repeat' split
  all_goals exact ⟨rfl, rfl⟩

theorem simulcastPath_sp (E : Externals) (s : Session) (p : RelayPacket)
    (hdr : RtpHeader) (b c : Bool) :
    (simulcastPath E { s with started := b, paused := c } p hdr).1 =
      { (simulcastPath E s p hdr).1 with started := b, paused := c } ∧
    (simulcastPath E { s with started := b, paused := c } p hdr).2 =
      (simulcastPath E s p hdr).2 := by
  simp only [simulcastPath]
  repeat' split
  all_goals exact ⟨rfl, rfl⟩

/-- C3: a packet that is not flagged as a keyframe is dropped — no relay
call, viewer state and shared buffer unchanged — whenever the viewer's
`started` flag is unset or its `paused` flag is set; packets flagged as
keyframes (such as the keyframe-buffer replay performed by
`janus_streaming_setup_media` before `started` is set, whose stored packets
carry `is_keyframe = TRUE`) bypass the started/paused check entirely: for
them the outcome does not depend on those two flags. -/
theorem relay_drop_unstarted_keyframe_bypass (E : Externals) (now : Int) (s : Session)
    (p : RelayPacket) (hdr : RtpHeader) :
    (1 ≤ p.length → p.is_keyframe = false → (s.started = false ∨ s.paused = true) →
      janus_streaming_relay_rtp_packet E now s p hdr = (s, hdr, [])) ∧
    (∀ b c : Bool, p.is_keyframe = true →
      (janus_streaming_relay_rtp_packet E now { s with started := b, paused := c } p hdr).1 =
        { (janus_streaming_relay_rtp_packet E now s p hdr).1 with started := b, paused := c } ∧
      (janus_streaming_relay_rtp_packet E now { s with started := b, paused := c } p hdr).2 =
        (janus_streaming_relay_rtp_packet E now s p hdr).2) := by
  constructor
  · intro hlen hkf hsp
    have hl : ¬ p.length < 1 := by omega
    have hb : (!p.is_keyframe && (!s.started || s.paused)) = true := by
      rcases hsp with hh | hh <;> simp [hkf, hh]
    simp [janus_streaming_relay_rtp_packet, hl, hb]
  · intro b c hkf
    simp only [janus_streaming_relay_rtp_packet, hkf, Bool.not_true, Bool.false_and,
      Bool.false_eq_true, if_false]
    repeat' split
    all_goals first
      | exact ⟨rfl, rfl⟩
      | exact svcPath_sp E now s p hdr b c
      | exact simulcastPath_sp E s p hdr b c

/-- Evaluation witness for `relay_drop_unstarted_keyframe_bypass`: a
non-keyframe packet towards a not-yet-started viewer is dropped unchanged;
a keyframe packet's relay outcome ignores `started`/`paused`. -/
theorem relay_drop_unstarted_keyframe_bypass_witness :
    (janus_streaming_relay_rtp_packet extW 0 { sessW with started := false } pktW hdrW =
      ({ sessW with started := false }, hdrW, [])) ∧
    ((janus_streaming_relay_rtp_packet extW 0 { sessW with started := false, paused := true }
        { pktW with is_keyframe := true } hdrW).2 =
      (janus_streaming_relay_rtp_packet extW 0 sessW
        { pktW with is_keyframe := true } hdrW).2) :=
  ⟨(relay_drop_unstarted_keyframe_bypass extW 0 { sessW with started := false } pktW hdrW).1
      (by decide) (by decide) (Or.inl (by decide)),
   ((relay_drop_unstarted_keyframe_bypass extW 0 sessW
      { pktW with is_keyframe := true } hdrW).2 false true (by decide)).2⟩

/-- C2 (code bug): the relay thread's data branch never stores the relayed
message into `source->last_msg` — the `buffermsg` block allocates and fills
a copy but drops it — so `last_msg` is unchanged by every data packet (it
stays `NULL` forever, and `janus_streaming_setup_media` consequently never
replays a "last message" to a new viewer). -/
theorem buffermsg_last_msg_never_stored (now : Int) (mp : MountpointState)
    (src : SourceState) (inp : DataIn) :
    (relayThreadDataStep now mp src inp).src.last_msg = src.last_msg ∧
    ((relayThreadDataStep 7 { mp with enabled := true }
        { src with buffermsg := true, last_msg := none } ⟨5, [1, 2, 3, 4, 5]⟩).src.last_msg =
      none) := by
  constructor
  · simp only [relayThreadDataStep]
    repeat' split
    all_goals rfl
  · simp only [relayThreadDataStep]
    repeat' split
    all_goals rfl

/-- C10: a data-channel message is relayed to a viewer only once that
viewer's data channel was reported writable: with `dataready` unset the
packet is silently dropped with no state change; any `relay_data` event
implies `dataready` was set; and `janus_streaming_data_ready` sets the flag
(compare-and-swap 0 → 1), idempotently and monotonically, so the 0 → 1
transition happens at most once per connection. -/
theorem data_relay_requires_dataready (E : Externals) (now : Int) (s : Session)
    (p : RelayPacket) (hdr : RtpHeader) :
    (p.is_rtp = false → s.dataready = false → 1 ≤ p.length →
      (p.is_keyframe = true ∨ (s.started = true ∧ s.paused = false)) →
      janus_streaming_relay_rtp_packet E now s p hdr = (s, hdr, [])) ∧
    (p.is_rtp = false → ∀ t l,
      RelayEvent.dataMsg t l ∈ (janus_streaming_relay_rtp_packet E now s p hdr).2.2 →
      s.dataready = true) ∧
    (s.destroyed = false → s.hangingup = false →
      janus_streaming_data_ready s = { s with dataready := true }) ∧
    (janus_streaming_data_ready (janus_streaming_data_ready s) =
      janus_streaming_data_ready s) ∧
    (s.dataready = true → (janus_streaming_data_ready s).dataready = true) := by
  refine ⟨?_, ?_, ?_, ?_, ?_⟩
  · intro hrtp hready hlen hstart
    have hl : ¬ p.length < 1 := by omega
    have hb : (!p.is_keyframe && (!s.started || s.paused)) = false := by
      rcases hstart with hh | ⟨hh, hh2⟩ <;> simp [hh]
      simp [hh2]
    simp [janus_streaming_relay_rtp_packet, hl, hb, hrtp, hready]
  · intro hrtp t l hmem
    simp only [janus_streaming_relay_rtp_packet, hrtp, Bool.false_eq_true, if_false] at hmem
    split at hmem
    · simp at hmem
    · split at hmem
      · simp at hmem
      · split at hmem
        · simp at hmem
        · split at hmem
          · rename_i hready
            exact hready
          · simp at hmem
  · intro h1 h2
    simp [janus_streaming_data_ready, h1, h2]
  · by_cases h : (s.destroyed = true ∨ s.hangingup = true) <;>
      simp [janus_streaming_data_ready, h]
  · intro h
    by_cases hg : (s.destroyed = true ∨ s.hangingup = true) <;>
      simp [janus_streaming_data_ready, hg, h]

/-- Evaluation witness for `data_relay_requires_dataready`: a data packet
towards a data-enabled viewer whose channel is not yet writable is dropped
unchanged, and the readiness callback sets the flag. -/
theorem data_relay_requires_dataready_witness :
    (janus_streaming_relay_rtp_packet extW 0 { sessW with dataready := false }
        { pktW with is_rtp := false } hdrW =
      ({ sessW with dataready := false }, hdrW, [])) ∧
    (janus_streaming_data_ready { sessW with dataready := false } =
      { sessW with dataready := true }) :=
  ⟨(data_relay_requires_dataready extW 0 { sessW with dataready := false }
      { pktW with is_rtp := false } hdrW).1 (by decide) (by decide) (by decide)
      (Or.inr ⟨by decide, by decide⟩),
   ((data_relay_requires_dataready extW 0 { sessW with dataready := false }
      { pktW with is_rtp := false } hdrW).2.2.1 (by decide) (by decide))⟩

/-- C6: an upstream PLI is never sent twice within one second.  When a send
is requested less than `G_USEC_PER_SEC` after `pli_latest`, nothing is
emitted and only `need_pli` is set; on an actual send `need_pli` is cleared
and `pli_latest` becomes the send time; two consecutive actual sends are at
least one second apart; and the relay loop's housekeeping emits the
coalesced PLI once the window has elapsed. -/
theorem pli_rate_limit (src : SourceState) (now now2 m m2 : Int)
    (hfd : 0 ≤ src.video_rtcp_fd) (haddr : src.video_rtcp_addr_valid = true)
    (hsp : src.sending_pli = false) :
    (now - src.pli_latest < 1000000 →
      janus_streaming_rtcp_pli_send src now now2 = ({ src with need_pli := true }, false)) ∧
    (1000000 ≤ now - src.pli_latest →
      janus_streaming_rtcp_pli_send src now now2 =
        ({ src with need_pli := false, pli_latest := now2 }, true)) ∧
    ((janus_streaming_rtcp_pli_send src now now2).2 = true →
      (janus_streaming_rtcp_pli_send (janus_streaming_rtcp_pli_send src now now2).1 m m2).2 =
        true →
      1000000 ≤ m - now2) ∧
    (src.need_pli = true → 1000000 ≤ now - src.pli_latest →
      relayThreadPliCheck src now now2 =
        ({ src with need_pli := false, pli_latest := now2 }, true)) := by
  have hg : ¬ (src.video_rtcp_fd < 0 ∨ src.video_rtcp_addr_valid = false) := by
    simp [haddr]
    omega
  refine ⟨?_, ?_, ?_, ?_⟩
  · intro hth
    simp [janus_streaming_rtcp_pli_send, hg, hsp, hth]
  · intro hth
    have hth2 : ¬ now - src.pli_latest < 1000000 := by omega
    simp [janus_streaming_rtcp_pli_send, hg, hsp, hth2]
  · intro h1 h2
    by_cases hth : now - src.pli_latest < 1000000
    · simp [janus_streaming_rtcp_pli_send, hg, hsp, hth] at h1
    · simp only [janus_streaming_rtcp_pli_send, if_neg hg, hsp, if_false,
        Bool.false_eq_true, if_neg hth] at h2
      by_cases hth2 : m - now2 < 1000000
      · simp [hth2] at h2
      · omega
  · intro hneed hth
    have hth2 : ¬ now - src.pli_latest < 1000000 := by omega
    simp [relayThreadPliCheck, hneed, janus_streaming_rtcp_pli_send, hg, hsp, hth2]

/-- Evaluation witness for `pli_rate_limit`: a request 0.5s after the last
send is throttled into the `need_pli` flag; a request 2s after is sent and
stamps `pli_latest`. -/
theorem pli_rate_limit_witness :
    (janus_streaming_rtcp_pli_send srcW 500000 500001 =
      ({ srcW with need_pli := true }, false)) ∧
    (janus_streaming_rtcp_pli_send srcW 2000000 2000001 =
      ({ srcW with need_pli := false, pli_latest := 2000001 }, true)) ∧
    (relayThreadPliCheck { srcW with need_pli := true } 2000000 2000001 =
      ({ srcW with need_pli := false, pli_latest := 2000001 }, true)) :=
  ⟨(pli_rate_limit srcW 500000 500001 0 0 (by decide) (by decide) (by decide)).1 (by decide),
   (pli_rate_limit srcW 2000000 2000001 0 0 (by decide) (by decide) (by decide)).2.1
     (by decide),
   (pli_rate_limit { srcW with need_pli := true } 2000000 2000001 0 0 (by decide) (by decide)
     (by decide)).2.2.2 (by decide) (by decide)⟩



theorem setCtxAt_keyframe_latest (src : SourceState) (i : Nat) (c : RtpSwitchingContext) :
    (src.setCtxAt i c).keyframe_latest = src.keyframe_latest := by
  unfold SourceState.setCtxAt
  repeat' split
  all_goals rfl

theorem setCtxAt_keyframe_temp (src : SourceState) (i : Nat) (c : RtpSwitchingContext) :
    (src.setCtxAt i c).keyframe_temp = src.keyframe_temp := by
  unfold SourceState.setCtxAt
  repeat' split
  all_goals rfl

theorem setCtxAt_keyframe_temp_ts (src : SourceState) (i : Nat) (c : RtpSwitchingContext) :
    (src.setCtxAt i c).keyframe_temp_ts = src.keyframe_temp_ts := by
  unfold SourceState.setCtxAt
  repeat' split
  all_goals rfl

theorem kfUpdate_lrv (src : SourceState) (inp : VideoIn) (x : Int) :
    kfUpdate { src with last_received_video := x } inp =
      { kfUpdate src inp with last_received_video := x } := by
  cases src
  unfold kfUpdate
  repeat' split
  all_goals simp_all

theorem kfUpdate_lrv_ssrc (src : SourceState) (inp : VideoIn) (x : Int) (y : Nat) :
    kfUpdate { src with last_received_video := x, video_ssrc := y } inp =
      { kfUpdate src inp with last_received_video := x, video_ssrc := y } := by
  cases src
  unfold kfUpdate
  repeat' split
  all_goals simp_all

theorem videoStep_kf_triple (E : Externals) (now : Int) (mp : MountpointState)
    (src : SourceState) (v0 v1 v2 : Nat) (inp : VideoIn)
    (h1 : ¬ (inp.bytes < 0 ∨ inp.wf = false))
    (hcol : ¬ videoCollision src (vLastAt v0 v1 v2 inp.index) inp.hdr.ssrc now)
    (hsr : ¬ (src.is_srtp = true ∧ inp.srtp_ok = false)) :
    (relayThreadVideoStep E now mp src v0 v1 v2 inp).src.keyframe_latest =
      (if src.keyframe_enabled = true then kfUpdate src inp else src).keyframe_latest ∧
    (relayThreadVideoStep E now mp src v0 v1 v2 inp).src.keyframe_temp =
      (if src.keyframe_enabled = true then kfUpdate src inp else src).keyframe_temp ∧
    (relayThreadVideoStep E now mp src v0 v1 v2 inp).src.keyframe_temp_ts =
      (if src.keyframe_enabled = true then kfUpdate src inp else src).keyframe_temp_ts := by
  simp only [relayThreadVideoStep, if_neg h1, if_neg hcol,
    apply_ite VideoStepResult.src,
    apply_ite (fun s => kfUpdate s inp),
    kfUpdate_lrv, kfUpdate_lrv_ssrc,
    apply_ite SourceState.keyframe_latest, apply_ite SourceState.keyframe_temp,
    apply_ite SourceState.keyframe_temp_ts, apply_ite SourceState.is_srtp,
    apply_ite SourceState.keyframe_enabled,
    setCtxAt_keyframe_latest, setCtxAt_keyframe_temp, setCtxAt_keyframe_temp_ts,
    ite_self]
  simp [hsr]


theorem videoStep_kf_triple_drop (E : Externals) (now : Int) (mp : MountpointState)
    (src : SourceState) (v0 v1 v2 : Nat) (inp : VideoIn)
    (h : (inp.bytes < 0 ∨ inp.wf = false) ∨
      videoCollision src (vLastAt v0 v1 v2 inp.index) inp.hdr.ssrc now ∨
      (src.is_srtp = true ∧ inp.srtp_ok = false)) :
    (relayThreadVideoStep E now mp src v0 v1 v2 inp).src.keyframe_latest =
      src.keyframe_latest ∧
    (relayThreadVideoStep E now mp src v0 v1 v2 inp).src.keyframe_temp =
      src.keyframe_temp ∧
    (relayThreadVideoStep E now mp src v0 v1 v2 inp).src.keyframe_temp_ts =
      src.keyframe_temp_ts := by
  by_cases h1 : (inp.bytes < 0 ∨ inp.wf = false)
  · simp [relayThreadVideoStep, h1]
  · by_cases hcol : videoCollision src (vLastAt v0 v1 v2 inp.index) inp.hdr.ssrc now
    · simp [relayThreadVideoStep, if_neg h1, hcol]
    · have hsr : src.is_srtp = true ∧ inp.srtp_ok = false := by tauto
      simp only [relayThreadVideoStep, if_neg h1, if_neg hcol,
        apply_ite VideoStepResult.src,
        apply_ite SourceState.keyframe_latest, apply_ite SourceState.keyframe_temp,
        apply_ite SourceState.keyframe_temp_ts, apply_ite SourceState.is_srtp,
        ite_self]
      simp [hsr]

theorem kfUpdate_install (src : SourceState) (inp : VideoIn)
    (h1 : 0 < src.keyframe_temp_ts) (h2 : inp.hdr.timestamp ≠ src.keyframe_temp_ts) :
    kfUpdate src inp =
      { src with keyframe_temp_ts := 0,
                 keyframe_latest := some src.keyframe_temp,
                 keyframe_temp := [] } := by
  simp [kfUpdate, h1, h2]

theorem kfUpdate_latest_unchanged (src : SourceState) (inp : VideoIn)
    (h : ¬ (0 < src.keyframe_temp_ts ∧ inp.hdr.timestamp ≠ src.keyframe_temp_ts)) :
    (kfUpdate src inp).keyframe_latest = src.keyframe_latest := by
  unfold kfUpdate
  repeat' split
  all_goals simp_all

/-- C9: the latest keyframe buffer is replaced exactly when a video packet
that reaches the keyframe-buffer logic arrives with an RTP timestamp
different from the in-progress group's `temp_ts` (with a group in
progress): the completed temp buffer is installed as `latest_keyframe`
(the old one freed) and temp becomes empty with `temp_ts = 0`; any change
of `latest_keyframe` is such a wholesale installation, so a subscriber
replay (which reads `latest_keyframe` under the same keyframe mutex)
observes either the previous complete group or the new one, never a
partial mix; the state holds one temp and one latest buffer. -/
theorem keyframe_buffer_replacement (E : Externals) (now : Int) (mp : MountpointState)
    (src : SourceState) (v0 v1 v2 : Nat) (inp : VideoIn) :
    (0 ≤ inp.bytes → inp.wf = true →
      ¬ videoCollision src (vLastAt v0 v1 v2 inp.index) inp.hdr.ssrc now →
      (src.is_srtp = true → inp.srtp_ok = true) →
      src.keyframe_enabled = true → 0 < src.keyframe_temp_ts →
      inp.hdr.timestamp ≠ src.keyframe_temp_ts →
      (relayThreadVideoStep E now mp src v0 v1 v2 inp).src.keyframe_latest =
          some src.keyframe_temp ∧
      (relayThreadVideoStep E now mp src v0 v1 v2 inp).src.keyframe_temp = [] ∧
      (relayThreadVideoStep E now mp src v0 v1 v2 inp).src.keyframe_temp_ts = 0) ∧
    ((relayThreadVideoStep E now mp src v0 v1 v2 inp).src.keyframe_latest ≠
        src.keyframe_latest →
      src.keyframe_enabled = true ∧ 0 < src.keyframe_temp_ts ∧
      inp.hdr.timestamp ≠ src.keyframe_temp_ts ∧
      (relayThreadVideoStep E now mp src v0 v1 v2 inp).src.keyframe_latest =
        some src.keyframe_temp ∧
      (relayThreadVideoStep E now mp src v0 v1 v2 inp).src.keyframe_temp = [] ∧
      (relayThreadVideoStep E now mp src v0 v1 v2 inp).src.keyframe_temp_ts = 0) := by
  constructor
  · intro hb hwf hcol hsrtp hkf hts hne
    have h1 : ¬ (inp.bytes < 0 ∨ inp.wf = false) := by
      simp [hwf]
      omega
    have hsr : ¬ (src.is_srtp = true ∧ inp.srtp_ok = false) := by
      intro hx
      have := hsrtp hx.1
      simp [this] at hx
    obtain ⟨hL, hT, hTs⟩ := videoStep_kf_triple E now mp src v0 v1 v2 inp h1 hcol hsr
    rw [hL, hT, hTs, if_pos hkf, kfUpdate_install src inp hts hne]
    exact ⟨rfl, rfl, rfl⟩
  · intro hch
    by_cases hdrop : (inp.bytes < 0 ∨ inp.wf = false) ∨
      videoCollision src (vLastAt v0 v1 v2 inp.index) inp.hdr.ssrc now ∨
      (src.is_srtp = true ∧ inp.srtp_ok = false)
    · exact absurd (videoStep_kf_triple_drop E now mp src v0 v1 v2 inp hdrop).1 hch
    · have h1 : ¬ (inp.bytes < 0 ∨ inp.wf = false) := fun hx => hdrop (Or.inl hx)
      have hcol : ¬ videoCollision src (vLastAt v0 v1 v2 inp.index) inp.hdr.ssrc now :=
        fun hx => hdrop (Or.inr (Or.inl hx))
      have hsr2 : ¬ (src.is_srtp = true ∧ inp.srtp_ok = false) :=
        fun hx => hdrop (Or.inr (Or.inr hx))
      obtain ⟨hL, hT, hTs⟩ := videoStep_kf_triple E now mp src v0 v1 v2 inp h1 hcol hsr2
      by_cases hkf : src.keyframe_enabled = true
      · rw [if_pos hkf] at hL hT hTs
        by_cases hc : 0 < src.keyframe_temp_ts ∧ inp.hdr.timestamp ≠ src.keyframe_temp_ts
        · rw [kfUpdate_install src inp hc.1 hc.2] at hL hT hTs
          exact ⟨hkf, hc.1, hc.2, by rw [hL], by rw [hT], by rw [hTs]⟩
        · exact absurd (hL.trans (kfUpdate_latest_unchanged src inp hc)) hch
      · rw [if_neg hkf] at hL
        exact absurd hL hch

/-- Evaluation witness for `keyframe_buffer_replacement`: a packet with a
new timestamp completes the in-progress keyframe group and installs it. -/
theorem keyframe_buffer_replacement_witness :
    (relayThreadVideoStep extW 5 ⟨true, true⟩
        { srcW with keyframe_temp_ts := 900,
                    keyframe_temp := [⟨1, 900, 10⟩] } 0 0 0
        ⟨0, 100, true, ⟨false, 96, 20, 1000, 5555⟩, true, true, true, 2⟩).src.keyframe_latest =
      some [⟨1, 900, 10⟩] ∧
    (relayThreadVideoStep extW 5 ⟨true, true⟩
        { srcW with keyframe_temp_ts := 900,
                    keyframe_temp := [⟨1, 900, 10⟩] } 0 0 0
        ⟨0, 100, true, ⟨false, 96, 20, 1000, 5555⟩, true, true, true, 2⟩).src.keyframe_temp =
      [] ∧
    (relayThreadVideoStep extW 5 ⟨true, true⟩
        { srcW with keyframe_temp_ts := 900,
                    keyframe_temp := [⟨1, 900, 10⟩] } 0 0 0
        ⟨0, 100, true, ⟨false, 96, 20, 1000, 5555⟩, true, true, true, 2⟩).src.keyframe_temp_ts =
      0 :=
  (keyframe_buffer_replacement extW 5 ⟨true, true⟩
      { srcW with keyframe_temp_ts := 900, keyframe_temp := [⟨1, 900, 10⟩] } 0 0 0
      ⟨0, 100, true, ⟨false, 96, 20, 1000, 5555⟩, true, true, true, 2⟩).1
    (by decide) (by decide) (by decide) (by decide) (by decide) (by decide) (by decide)

theorem setCtxAt_lrv (src : SourceState) (i : Nat) (c : RtpSwitchingContext) :
    (src.setCtxAt i c).last_received_video = src.last_received_video := by
  unfold SourceState.setCtxAt
  repeat' split
  all_goals rfl

theorem setCtxAt_vskew (src : SourceState) (i : Nat) (c : RtpSwitchingContext) :
    (src.setCtxAt i c).vskew = src.vskew := by
  unfold SourceState.setCtxAt
  repeat' split
  all_goals rfl

theorem kfUpdate_vrc (src : SourceState) (inp : VideoIn) :
    (kfUpdate src inp).vrc = src.vrc := by
  unfold kfUpdate
  repeat' split
  all_goals rfl

theorem kfUpdate_vskew (src : SourceState) (inp : VideoIn) :
    (kfUpdate src inp).vskew = src.vskew := by
  unfold kfUpdate
  repeat' split
  all_goals rfl

/-- C8 (amended): while a mountpoint's `enabled` flag is false, a
well-formed RTP packet that passes the SSRC-collision guard (and every
data-socket read) still updates the source's `last_received_audio` /
`last_received_video` / `last_received_data` timestamp to the current
time, but nothing is handed to the viewer/helper fan-out, which is guarded
by `enabled`; once re-enabled, forwarding resumes.  (The original claim's
"every well-formed packet" fails for packets dropped by the RTP-collision
guard, see the counterexample.) -/
theorem disabled_mountpoint_updates_no_fanout (E : Externals) (now : Int)
    (mp : MountpointState) (src : SourceState) (a v0 v1 v2 : Nat)
    (ain : AudioIn) (vin : VideoIn) (din : DataIn) :
    (mp.enabled = false → (relayThreadAudioStep E now mp src a ain).fanout = false) ∧
    (0 ≤ ain.bytes → ain.wf = true → ¬ audioCollision src a ain.hdr.ssrc now →
      (relayThreadAudioStep E now mp src a ain).src.last_received_audio = now) ∧
    (mp.enabled = false → (relayThreadVideoStep E now mp src v0 v1 v2 vin).fanout = false) ∧
    (0 ≤ vin.bytes → vin.wf = true →
      ¬ videoCollision src (vLastAt v0 v1 v2 vin.index) vin.hdr.ssrc now →
      (relayThreadVideoStep E now mp src v0 v1 v2 vin).src.last_received_video = now) ∧
    ((relayThreadDataStep now mp src din).src.last_received_data = now) ∧
    (mp.enabled = false → (relayThreadDataStep now mp src din).fanout = false) ∧
    (mp.enabled = true → 0 ≤ ain.bytes → ain.wf = true →
      ¬ audioCollision src a ain.hdr.ssrc now → src.is_srtp = false → src.askew = false →
      (relayThreadAudioStep E now mp src a ain).fanout = true) ∧
    (mp.enabled = true → 0 ≤ vin.bytes → vin.wf = true →
      ¬ videoCollision src (vLastAt v0 v1 v2 vin.index) vin.hdr.ssrc now →
      src.is_srtp = false → src.vskew = false →
      (relayThreadVideoStep E now mp src v0 v1 v2 vin).fanout = true) := by
  refine ⟨?_, ?_, ?_, ?_, ?_, ?_, ?_, ?_⟩
  · intro hen
    simp only [relayThreadAudioStep, apply_ite AudioStepResult.fanout, ite_self]
    simp [hen, ite_self]
  · intro hb hwf hcol
    have h1 : ¬ (ain.bytes < 0 ∨ ain.wf = false) := by
      simp [hwf]
      omega
    simp only [relayThreadAudioStep, if_neg h1, if_neg hcol,
      apply_ite AudioStepResult.src, apply_ite SourceState.last_received_audio,
      ite_self]
  · intro hen
    simp only [relayThreadVideoStep, apply_ite VideoStepResult.fanout, ite_self]
    simp [hen, ite_self]
  · intro hb hwf hcol
    have h1 : ¬ (vin.bytes < 0 ∨ vin.wf = false) := by
      simp [hwf]
      omega
    simp only [relayThreadVideoStep, if_neg h1, if_neg hcol,
      apply_ite VideoStepResult.src, apply_ite SourceState.last_received_video,
      apply_ite (fun s => kfUpdate s vin), kfUpdate_lrv, kfUpdate_lrv_ssrc,
      setCtxAt_lrv, ite_self]
  · simp only [relayThreadDataStep, apply_ite DataStepResult.src,
      apply_ite SourceState.last_received_data, ite_self]
  · intro hen
    simp only [relayThreadDataStep, apply_ite DataStepResult.fanout, ite_self]
    simp [hen, ite_self]
  · intro hen hb hwf hcol hsrtp haskew
    have h1 : ¬ (ain.bytes < 0 ∨ ain.wf = false) := by
      simp [hwf]
      omega
    simp only [relayThreadAudioStep, if_neg h1, if_neg hcol,
      apply_ite AudioStepResult.fanout, apply_ite SourceState.is_srtp,
      apply_ite SourceState.askew, apply_ite SourceState.arc, ite_self]
    simp [hen, hsrtp, haskew]
  · intro hen hb hwf hcol hsrtp hvskew
    have h1 : ¬ (vin.bytes < 0 ∨ vin.wf = false) := by
      simp [hwf]
      omega
    simp only [relayThreadVideoStep, if_neg h1, if_neg hcol,
      apply_ite VideoStepResult.fanout, apply_ite SourceState.is_srtp,
      apply_ite SourceState.vskew, apply_ite SourceState.vrc,
      apply_ite SourceState.keyframe_enabled,
      apply_ite (fun s => kfUpdate s vin), kfUpdate_lrv, kfUpdate_lrv_ssrc,
      kfUpdate_vrc, kfUpdate_vskew, setCtxAt_vskew, ite_self]
    simp [hen, hsrtp, hvskew, setCtxAt_vskew, kfUpdate_vskew,
      apply_ite SourceState.vskew, apply_ite VideoStepResult.fanout, ite_self]

/-- C8 counterexample: with the RTP-collision guard configured
(`rtp_collision = 5`ms) and a second SSRC arriving within the window, a
well-formed audio RTP packet received while the mountpoint is disabled does
NOT update `last_received_audio` — refuting "every well-formed RTP/data
packet ... still updates the source's last_received_* timestamp". -/
theorem disabled_update_collision_cex :
    ((relayThreadAudioStep extW 100 ⟨false, false⟩ { srcW with rtp_collision := 5 } 1111
        ⟨100, true, ⟨false, 96, 1, 1, 2222⟩, true⟩).src.last_received_audio ≠ 100) ∧
    ((⟨100, true, ⟨false, 96, 1, 1, 2222⟩, true⟩ : AudioIn).wf = true) ∧
    ((⟨false, false⟩ : MountpointState).enabled = false) := by decide

/-- Evaluation witness for `disabled_mountpoint_updates_no_fanout`. -/
theorem disabled_mountpoint_updates_no_fanout_witness :
    ((relayThreadAudioStep extW 50 ⟨false, false⟩ srcW 0
        ⟨100, true, ⟨false, 96, 1, 1, 2222⟩, true⟩).fanout = false) ∧
    ((relayThreadAudioStep extW 50 ⟨false, false⟩ srcW 0
        ⟨100, true, ⟨false, 96, 1, 1, 2222⟩, true⟩).src.last_received_audio = 50) ∧
    ((relayThreadDataStep 50 ⟨false, false⟩ srcW ⟨3, [7, 8, 9]⟩).src.last_received_data = 50) ∧
    ((relayThreadAudioStep extW 50 ⟨true, false⟩ srcW 0
        ⟨100, true, ⟨false, 96, 1, 1, 2222⟩, true⟩).fanout = true) :=
  ⟨(disabled_mountpoint_updates_no_fanout extW 50 ⟨false, false⟩ srcW 0 0 0 0
      ⟨100, true, ⟨false, 96, 1, 1, 2222⟩, true⟩ ⟨0, 0, true, ⟨false, 96, 1, 1, 2⟩, true, true,
        false, 0⟩ ⟨3, [7, 8, 9]⟩).1 (by decide),
   (disabled_mountpoint_updates_no_fanout extW 50 ⟨false, false⟩ srcW 0 0 0 0
      ⟨100, true, ⟨false, 96, 1, 1, 2222⟩, true⟩ ⟨0, 0, true, ⟨false, 96, 1, 1, 2⟩, true, true,
        false, 0⟩ ⟨3, [7, 8, 9]⟩).2.1 (by decide) (by decide) (by decide),
   (disabled_mountpoint_updates_no_fanout extW 50 ⟨false, false⟩ srcW 0 0 0 0
      ⟨100, true, ⟨false, 96, 1, 1, 2222⟩, true⟩ ⟨0, 0, true, ⟨false, 96, 1, 1, 2⟩, true, true,
        false, 0⟩ ⟨3, [7, 8, 9]⟩).2.2.2.2.1,
   (disabled_mountpoint_updates_no_fanout extW 50 ⟨true, false⟩ srcW 0 0 0 0
      ⟨100, true, ⟨false, 96, 1, 1, 2222⟩, true⟩ ⟨0, 0, true, ⟨false, 96, 1, 1, 2⟩, true, true,
        false, 0⟩ ⟨3, [7, 8, 9]⟩).2.2.2.2.2.2.1 (by decide) (by decide) (by decide) (by decide)
     (by decide) (by decide)⟩

/-- C4 counterexample: "a packet whose SVC spatial layer exceeds the
viewer's achieved spatial layer is never relayed" fails for both readings
of "achieved".  Downscale: a session at achieved layer 2 with target 0
receives a non-flexible keyframe of spatial layer 1; the session's achieved
layer is set to 0 before the drop test, yet the packet (layer 1 > 0) is
relayed, because the drop test uses the pre-downscale local value.
Upscale: a keyframe of layer 2 towards a session at achieved layer 0 with
target 2 upscales and is relayed although its layer exceeds the achieved
layer at entry. -/
theorem svc_drop_achieved_layer_cex :
    (((janus_streaming_relay_rtp_packet extW 0
        { sessW with spatial_layer := 2, target_spatial_layer := 0 }
        { pktW with svc := true, is_keyframe := true,
                    svc_info := ⟨1, 0, false, false, false, false⟩ } hdrW).1.spatial_layer <
        (1 : Int)) ∧
      (janus_streaming_relay_rtp_packet extW 0
        { sessW with spatial_layer := 2, target_spatial_layer := 0 }
        { pktW with svc := true, is_keyframe := true,
                    svc_info := ⟨1, 0, false, false, false, false⟩ } hdrW).2.2 ≠ []) ∧
    ((({ sessW with target_spatial_layer := 2 } : Session).spatial_layer < (2 : Int)) ∧
      (janus_streaming_relay_rtp_packet extW 0 { sessW with target_spatial_layer := 2 }
        { pktW with svc := true, is_keyframe := true,
                    svc_info := ⟨2, 0, false, false, false, false⟩ } hdrW).2.2 ≠ []) := by
  decide

/-- C4 (amended): on the SVC path, a packet whose spatial layer exceeds the
achieved spatial layer in effect for this packet — the session's layer
after any same-packet keyframe upscale; a same-packet downscale only takes
effect from the next packet — or whose temporal layer exceeds the analogous
temporal value, is never relayed to that viewer, and each such drop
increments the viewer's `context.v_base_seq` by exactly one (16-bit), with
the rest of the context, the session and the shared header untouched
beyond the up/downscale bookkeeping. -/
theorem svc_layer_drop_increments_base_seq (E : Externals) (now : Int) (s : Session)
    (p : RelayPacket) (hdr : RtpHeader)
    (hlen : 1 ≤ p.length)
    (hstart : p.is_keyframe = true ∨ (s.started = true ∧ s.paused = false))
    (hrtp : p.is_rtp = true) (hvid : p.is_video = true) (hsvid : s.video = true)
    (hsvc : p.svc = true) :
    ((svcSpatialPhase E now s p).2.1 < p.svc_info.spatial_layer →
      janus_streaming_relay_rtp_packet E now s p hdr =
        ({ (svcSpatialPhase E now s p).1 with
             context := incBaseSeq (svcSpatialPhase E now s p).1.context }, hdr, [])) ∧
    (p.svc_info.spatial_layer ≤ (svcSpatialPhase E now s p).2.1 →
      (svcTemporalPhase (svcSpatialPhase E now s p).1 p).2 < p.svc_info.temporal_layer →
      janus_streaming_relay_rtp_packet E now s p hdr =
        ({ (svcTemporalPhase (svcSpatialPhase E now s p).1 p).1 with
             context :=
               incBaseSeq (svcTemporalPhase (svcSpatialPhase E now s p).1 p).1.context },
         hdr, [])) := by
  have hl : ¬ p.length < 1 := by omega
  have hb : ¬ (!p.is_keyframe && (!s.started || s.paused)) = true := by
    rcases hstart with hh | ⟨hh, hh2⟩ <;> simp [hh]
    simp [hh2]
  have hv : ¬ (!s.video) = true := by simp [hsvid]
  constructor
  · intro hdrop
    simp only [janus_streaming_relay_rtp_packet]
    rw [if_neg hl, if_neg hb, if_pos hrtp, if_pos hvid, if_neg hv, if_pos hsvc]
    simp only [svcPath, if_pos hdrop]
  · intro hok hdrop
    have hok2 : ¬ (svcSpatialPhase E now s p).2.1 < p.svc_info.spatial_layer := by omega
    simp only [janus_streaming_relay_rtp_packet]
    rw [if_neg hl, if_neg hb, if_pos hrtp, if_pos hvid, if_neg hv, if_pos hsvc]
    simp only [svcPath, if_neg hok2, if_pos hdrop]

/-- Evaluation witness for `svc_layer_drop_increments_base_seq`: a packet
of spatial layer 1 towards a viewer at achieved layer 0 is dropped and the
base sequence counter advances from 3 to 4. -/
theorem svc_layer_drop_increments_base_seq_witness :
    (janus_streaming_relay_rtp_packet extW 0 sessW
        { pktW with svc := true, svc_info := ⟨1, 0, false, false, false, false⟩ } hdrW =
      ({ (svcSpatialPhase extW 0 sessW
            { pktW with svc := true, svc_info := ⟨1, 0, false, false, false, false⟩ }).1 with
           context := incBaseSeq (svcSpatialPhase extW 0 sessW
             { pktW with svc := true, svc_info := ⟨1, 0, false, false, false, false⟩ }).1.context },
       hdrW, [])) ∧
    (janus_streaming_relay_rtp_packet extW 0 sessW
        { pktW with svc := true, svc_info := ⟨1, 0, false, false, false, false⟩ }
        hdrW).1.context.v_base_seq = 4 :=
  ⟨(svc_layer_drop_increments_base_seq extW 0 sessW
      { pktW with svc := true, svc_info := ⟨1, 0, false, false, false, false⟩ } hdrW
      (by decide) (Or.inr ⟨by decide, by decide⟩) (by decide) (by decide) (by decide)
      (by decide)).1 (by decide),
   by decide⟩

theorem svcLoop_le (last : Int → Int) (now spatial : Int) :
    ∀ (fuel : Nat) (new : Int), svcLoop last now spatial fuel new ≤ new := by
  intro fuel
  induction fuel with
  | zero => intro new; simp [svcLoop]
  | succ n ih =>
    intro new
    simp only [svcLoop]
    split
    · have := ih (new - 1)
      omega
    · omega

theorem svcLoop_stale (last : Int → Int) (now spatial : Int) :
    ∀ (fuel : Nat) (new m : Int), svcLoop last now spatial fuel new < m → m ≤ new →
      now - last m ≥ 250000 := by
  intro fuel
  induction fuel with
  | zero =>
    intro new m h1 h2
    simp [svcLoop] at h1
    omega
  | succ n ih =>
    intro new m h1 h2
    simp only [svcLoop] at h1
    split at h1
    · rename_i hc
      by_cases hm : m = new
      · subst hm
        exact hc.2.2
      · exact ih (new - 1) m h1 (by omega)
    · omega

theorem svcLoop_term (last : Int → Int) (now spatial : Int) :
    ∀ (fuel : Nat) (new : Int), new.toNat < fuel →
      ¬ (svcLoop last now spatial fuel new > spatial ∧
         svcLoop last now spatial fuel new > 0 ∧
         now - last (svcLoop last now spatial fuel new) ≥ 250000) := by
  intro fuel
  induction fuel with
  | zero =>
    intro new h
    omega
  | succ n ih =>
    intro new h
    simp only [svcLoop]
    split
    · rename_i hc
      apply ih
      omega
    · rename_i hc
      exact hc

theorem svcPick_le (last : Int → Int) (now spatial target : Int) :
    svcPick last now spatial target ≤ target :=
  svcLoop_le last now spatial (target.toNat + 1) target

theorem svcPick_stale (last : Int → Int) (now spatial target m : Int)
    (h1 : svcPick last now spatial target < m) (h2 : m ≤ target) :
    now - last m ≥ 250000 :=
  svcLoop_stale last now spatial (target.toNat + 1) target m h1 h2

theorem svcPick_term (last : Int → Int) (now spatial target : Int) :
    ¬ (svcPick last now spatial target > spatial ∧ svcPick last now spatial target > 0 ∧
       now - last (svcPick last now spatial target) ≥ 250000) :=
  svcLoop_term last now spatial (target.toNat + 1) target (by omega)

theorem svcTemporalPhase_spatial (s : Session) (p : RelayPacket) :
    (svcTemporalPhase s p).1.spatial_layer = s.spatial_layer := by
  unfold svcTemporalPhase
  repeat' split
  all_goals rfl

theorem svcPath_spatial (E : Externals) (now : Int) (s : Session) (p : RelayPacket)
    (hdr : RtpHeader) :
    (svcPath E now s p hdr).1.spatial_layer = (svcSpatialPhase E now s p).1.spatial_layer := by
  have ht := svcTemporalPhase_spatial (svcSpatialPhase E now s p).1 p
  simp only [svcPath]
  repeat' split
  all_goals simp [ht]

theorem simulcastPath_spatial (E : Externals) (s : Session) (p : RelayPacket)
    (hdr : RtpHeader) :
    (simulcastPath E s p hdr).1.spatial_layer = s.spatial_layer := by
  simp only [simulcastPath]
  repeat' split
  all_goals rfl

theorem relay_spatial_cases (E : Externals) (now : Int) (s : Session) (p : RelayPacket)
    (hdr : RtpHeader) :
    (janus_streaming_relay_rtp_packet E now s p hdr).1.spatial_layer = s.spatial_layer ∨
    (janus_streaming_relay_rtp_packet E now s p hdr).1.spatial_layer =
      (svcSpatialPhase E now s p).1.spatial_layer := by
  simp only [janus_streaming_relay_rtp_packet]
  repeat' split
  all_goals first
    | (left; rfl)
    | (right; exact svcPath_spatial E now s p hdr)
    | (left; exact simulcastPath_spatial E s p hdr)

theorem recordLastSpatial_spatial (s : Session) (l now : Int) :
    (recordLastSpatial s l now).spatial_layer = s.spatial_layer := by
  unfold recordLastSpatial
  repeat' split
  all_goals rfl

theorem recordLastSpatial_target (s : Session) (l now : Int) :
    (recordLastSpatial s l now).target_spatial_layer = s.target_spatial_layer := by
  unfold recordLastSpatial
  repeat' split
  all_goals rfl

theorem svcSpatialPhase_increase (E : Externals) (now : Int) (s : Session) (p : RelayPacket)
    (h : s.spatial_layer < (svcSpatialPhase E now s p).1.spatial_layer) :
    E.vp9_is_keyframe p = true ∧
    (svcSpatialPhase E now s p).1.spatial_layer =
      svcPick (recordLastSpatial s p.svc_info.spatial_layer now).lastSpatial now
        s.spatial_layer s.target_spatial_layer ∧
    s.spatial_layer < s.target_spatial_layer := by
  simp only [svcSpatialPhase, recordLastSpatial_spatial, recordLastSpatial_target] at h ⊢
  repeat' split at h
  all_goals simp_all [recordLastSpatial_spatial, recordLastSpatial_target]

/-- C5 (amended): the viewer's achieved spatial layer increases only when
the processed packet parses as a VP9 keyframe, never above the target; the
candidate layer is decremented one layer at a time while stale (no traffic
from it within the last 250ms, as recorded after refreshing the packet's
own layer), so every layer strictly between the adopted layer and the
target is stale; and the adopted layer is either fresh or layer 0 — the
fall-back stops at layer 0 and can adopt it even if stale (when the
achieved layer was -1), which is the one departure from the original
claim's "only to a layer seen within the last 250ms". -/
theorem svc_upscale_keyframe_bounded (E : Externals) (now : Int) (s : Session)
    (p : RelayPacket) (hdr : RtpHeader)
    (hsp : -1 ≤ s.spatial_layer)
    (hinc : s.spatial_layer <
      (janus_streaming_relay_rtp_packet E now s p hdr).1.spatial_layer) :
    E.vp9_is_keyframe p = true ∧
    (janus_streaming_relay_rtp_packet E now s p hdr).1.spatial_layer ≤
      s.target_spatial_layer ∧
    (∀ m, (janus_streaming_relay_rtp_packet E now s p hdr).1.spatial_layer < m →
      m ≤ s.target_spatial_layer →
      now - (recordLastSpatial s p.svc_info.spatial_layer now).lastSpatial m ≥ 250000) ∧
    (now - (recordLastSpatial s p.svc_info.spatial_layer now).lastSpatial
        ((janus_streaming_relay_rtp_packet E now s p hdr).1.spatial_layer) < 250000 ∨
      (janus_streaming_relay_rtp_packet E now s p hdr).1.spatial_layer = 0) := by
  rcases relay_spatial_cases E now s p hdr with hc | hc
  · omega
  · rw [hc] at hinc ⊢
    obtain ⟨hkf, heq, hlt⟩ := svcSpatialPhase_increase E now s p hinc
    rw [heq] at hinc ⊢
    have hterm := svcPick_term (recordLastSpatial s p.svc_info.spatial_layer now).lastSpatial
      now s.spatial_layer s.target_spatial_layer
    refine ⟨hkf, svcPick_le _ _ _ _, ?_, ?_⟩
    · intro m hm1 hm2
      exact svcPick_stale _ _ _ _ m hm1 hm2
    · by_cases hz :
        svcPick (recordLastSpatial s p.svc_info.spatial_layer now).lastSpatial now
          s.spatial_layer s.target_spatial_layer = 0
      · exact Or.inr hz
      · left
        by_contra hst
        exact hterm ⟨hinc, by omega, by omega⟩

/-- C5 counterexample: with achieved layer -1 and target 1, a keyframe of
spatial layer 2 arrives when layers 0 and 1 are both stale (no traffic for
a full second): the fall-back walks 1 → 0 and adopts layer 0 even though
layer 0's last-seen traffic timestamp is a full second old — refuting
"only to a layer whose last-seen traffic timestamp is within the last
250ms". -/
theorem svc_upscale_freshness_cex :
    ((janus_streaming_relay_rtp_packet extW 1000000
        { sessW with spatial_layer := -1, target_spatial_layer := 1, temporal_layer := -1 }
        { pktW with svc := true, is_keyframe := true,
                    svc_info := ⟨2, 0, false, false, false, false⟩ } hdrW).1.spatial_layer =
      0) ∧
    (({ sessW with spatial_layer := -1, target_spatial_layer := 1,
                   temporal_layer := -1 } : Session).spatial_layer = -1) ∧
    ((1000000 : Int) -
        ({ sessW with spatial_layer := -1, target_spatial_layer := 1,
                      temporal_layer := -1 } : Session).last_spatial_layer0 ≥ 250000) := by
  decide

/-- Evaluation witness for `svc_upscale_keyframe_bounded`: a keyframe of
layer 2 upscales a viewer from achieved 0 towards target 2, and the
adopted layer stays within the target. -/
theorem svc_upscale_keyframe_bounded_witness :
    extW.vp9_is_keyframe { pktW with svc := true, is_keyframe := true,
                                     svc_info := ⟨2, 0, false, false, false, false⟩ } = true ∧
    (janus_streaming_relay_rtp_packet extW 0 { sessW with target_spatial_layer := 2 }
        { pktW with svc := true, is_keyframe := true,
                    svc_info := ⟨2, 0, false, false, false, false⟩ } hdrW).1.spatial_layer ≤
      ({ sessW with target_spatial_layer := 2 } : Session).target_spatial_layer :=
  ⟨(svc_upscale_keyframe_bounded extW 0 { sessW with target_spatial_layer := 2 }
      { pktW with svc := true, is_keyframe := true,
                  svc_info := ⟨2, 0, false, false, false, false⟩ } hdrW
      (by decide) (by decide)).1,
   (svc_upscale_keyframe_bounded extW 0 { sessW with target_spatial_layer := 2 }
      { pktW with svc := true, is_keyframe := true,
                  svc_info := ⟨2, 0, false, false, false, false⟩ } hdrW
      (by decide) (by decide)).2.1⟩

theorem createFdScan_none (bindOk : Nat → Bool) (rmin rmax : Nat)
    (hfail : ∀ p2, rmin ≤ p2 → p2 ≤ rmax → bindOk p2 = false) :
    ∀ (fuel next start : Nat) (wrap : Bool), rmin ≤ next → next ≤ rmax →
      createFdScan bindOk rmin rmax fuel next start wrap = none := by
  intro fuel
  induction fuel with
  | zero => intro next start wrap h1 h2; rfl
  | succ n ih =>
    intro next start wrap h1 h2
    simp only [createFdScan]
    split
    · rfl
    · rw [hfail next h1 h2]
      simp only [Bool.false_eq_true, if_false]
      split
      · exact ih (next + 1) start wrap (by omega) (by omega)
      · exact ih rmin start true (le_refl rmin) (by omega)

theorem createFdScan_some (bindOk : Nat → Bool) (rmin rmax : Nat) :
    ∀ (fuel next start : Nat) (wrap : Bool) (q : Nat), rmin ≤ next → next ≤ rmax →
      createFdScan bindOk rmin rmax fuel next start wrap = some q →
      bindOk q = true ∧ rmin ≤ q ∧ q ≤ rmax := by
  intro fuel
  induction fuel with
  | zero => intro next start wrap q h1 h2 h; exact absurd h (by simp [createFdScan])
  | succ n ih =>
    intro next start wrap q h1 h2 h
    simp only [createFdScan] at h
    split at h
    · exact absurd h (by simp)
    · by_cases hb : bindOk next = true
      · rw [if_pos hb] at h
        obtain rfl : next = q := by simpa using h
        exact ⟨hb, h1, h2⟩
      · rw [if_neg hb] at h
        split at h
        · exact ih (next + 1) start wrap q (by omega) (by omega) h
        · exact ih rmin start true q (le_refl rmin) (by omega) h

theorem createFdScan_hit_before_wrap (bindOk : Nat → Bool) (rmin rmax : Nat) :
    ∀ (fuel next start : Nat) (wrap : Bool) (q : Nat), next ≤ q → q ≤ rmax →
      bindOk q = true → (wrap = true → q < start) → q + 1 - next ≤ fuel →
      (createFdScan bindOk rmin rmax fuel next start wrap).isSome := by
  intro fuel
  induction fuel with
  | zero => intro next start wrap q h1 h2 h3 h4 h5; omega
  | succ n ih =>
    intro next start wrap q h1 h2 h3 h4 h5
    simp only [createFdScan]
    split
    · rename_i hstop
      have := h4 hstop.1
      omega
    · by_cases hb : bindOk next = true
      · simp [hb]
      · rw [if_neg hb]
        have hne : next ≠ q := fun hx => hb (hx ▸ h3)
        have hlt : next < rmax := by omega
        rw [if_pos hlt, if_pos hlt]
        exact ih (next + 1) start wrap q (by omega) h2 h3 h4 (by omega)

theorem createFdScan_hit_after_wrap (bindOk : Nat → Bool) (rmin rmax : Nat) :
    ∀ (fuel next start : Nat) (q : Nat), next ≤ rmax → start ≤ rmax + 1 → rmin ≤ q →
      q < start → bindOk q = true → (rmax + 1 - next) + (q + 1 - rmin) ≤ fuel →
      (createFdScan bindOk rmin rmax fuel next start false).isSome := by
  intro fuel
  induction fuel with
  | zero => intro next start q h1 hst h2 h3 h4 h5; omega
  | succ n ih =>
    intro next start q h1 hst h2 h3 h4 h5
    simp only [createFdScan]
    rw [if_neg (by simp)]
    by_cases hb : bindOk next = true
    · simp [hb]
    · rw [if_neg hb]
      by_cases hlt : next < rmax
      · rw [if_pos hlt, if_pos hlt]
        exact ih (next + 1) start q (by omega) hst h2 h3 h4 (by omega)
      · rw [if_neg hlt, if_neg hlt]
        have hnext : next = rmax := by omega
        exact createFdScan_hit_before_wrap bindOk rmin rmax n rmin start true q
          h2 (by omega) h4 (fun _ => h3) (by omega)


theorem allocatePairScan_even (bindOk : Nat → Bool) (rmin rmax : Nat)
    (hrmin : rmin % 2 = 0) :
    ∀ (fuel next start : Nat) (wrap : Bool) (a b s2 : Nat), next % 2 = 0 →
      allocatePairScan bindOk rmin rmax fuel next start wrap = some (a, b, s2) →
      a % 2 = 0 ∧ b = a + 1 := by
  intro fuel
  induction fuel with
  | zero =>
    intro next start wrap a b s2 h1 h
    exact absurd h (by simp [allocatePairScan])
  | succ n ih =>
    intro next start wrap a b s2 h1 h
    simp only [allocatePairScan] at h
    split at h
    · exact absurd h (by simp)
    · split at h
      · obtain ⟨rfl, rfl, -⟩ : next = a ∧ next + 1 = b ∧ _ = s2 := by
          simpa using h
        exact ⟨h1, rfl⟩
      · split at h
        · exact ih (next + 2) start wrap a b s2 (by omega) h
        · exact ih rmin start true a b s2 hrmin h

/-- C7: `janus_streaming_create_fd` port selection.  With an explicit
nonzero port a single bind is attempted and failure is final (no retry,
slider untouched).  With port 0 and the global slider inside
`[rtp_range_min, rtp_range_max]`: if no port of the range binds the scan
fails (`-1`, "no ports available") after covering the whole range once; if
some port of the range binds, a port is realized — it binds, lies in the
range, and the global slider is updated to it.
`janus_streaming_allocate_port_pair` only ever realizes even-aligned
RTP/RTCP pairs `(rtp, rtp+1)` when the range minimum is even. -/
theorem create_fd_port_allocation (bindOk : Nat → Bool) (rmin rmax slider : Nat)
    (h1 : rmin ≤ slider) (h2 : slider ≤ rmax) :
    (∀ port, port ≠ 0 →
      janus_streaming_create_fd bindOk rmin rmax slider port =
        ((if bindOk port then some port else none), slider)) ∧
    ((∀ p2, rmin ≤ p2 → p2 ≤ rmax → bindOk p2 = false) →
      janus_streaming_create_fd bindOk rmin rmax slider 0 = (none, slider)) ∧
    (∀ q, rmin ≤ q → q ≤ rmax → bindOk q = true →
      ∃ r, janus_streaming_create_fd bindOk rmin rmax slider 0 = (some r, r) ∧
        bindOk r = true ∧ rmin ≤ r ∧ r ≤ rmax) ∧
    (rmin % 2 = 0 → ∀ a b s2,
      janus_streaming_allocate_port_pair bindOk rmin rmax slider = some (a, b, s2) →
      a % 2 = 0 ∧ b = a + 1) := by
  refine ⟨?_, ?_, ?_, ?_⟩
  · intro port hp
    simp [janus_streaming_create_fd, hp]
  · intro hfail
    have := createFdScan_none bindOk rmin rmax hfail (rmax + 2) slider slider false h1 h2
    simp [janus_streaming_create_fd, this]
  · intro q hq1 hq2 hq3
    have hsome : (createFdScan bindOk rmin rmax (rmax + 2) slider slider false).isSome := by
      by_cases hcase : slider ≤ q
      · exact createFdScan_hit_before_wrap bindOk rmin rmax (rmax + 2) slider slider false q
          hcase hq2 hq3 (by simp) (by omega)
      · exact createFdScan_hit_after_wrap bindOk rmin rmax (rmax + 2) slider slider q
          h2 (by omega) hq1 (by omega) hq3 (by omega)
    obtain ⟨r, hr⟩ := Option.isSome_iff_exists.mp hsome
    obtain ⟨hb, hr1, hr2⟩ := createFdScan_some bindOk rmin rmax (rmax + 2) slider slider
      false r h1 h2 hr
    refine ⟨r, ?_, hb, hr1, hr2⟩
    simp [janus_streaming_create_fd, hr]
  · intro he a b s2 h
    have hstart : (if slider % 2 = 0 then slider else slider + 1) % 2 = 0 := by
      split
      · assumption
      · omega
    exact allocatePairScan_even bindOk rmin rmax he (rmax + 4)
      (if slider % 2 = 0 then slider else slider + 1)
      (if slider % 2 = 0 then slider else slider + 1) false a b s2 hstart h

/-- Evaluation witness for `create_fd_port_allocation`: explicit port 11 is
unavailable and fails immediately; an all-busy range fails; the range scan
from slider 12 realizes port 13 and updates the slider; the pair allocator
realizes the even pair (14, 15) advancing the slider to 16. -/
theorem create_fd_port_allocation_witness :
    (janus_streaming_create_fd bindW 10 20 12 11 = (none, 12)) ∧
    (janus_streaming_create_fd (fun _ => false) 10 20 12 0 = (none, 12)) ∧
    (∃ r, janus_streaming_create_fd bindW 10 20 12 0 = (some r, r) ∧
      bindW r = true ∧ 10 ≤ r ∧ r ≤ 20) ∧
    ((janus_streaming_allocate_port_pair bindW 10 20 12 = some (14, 15, 16)) ∧
      14 % 2 = 0 ∧ 15 = 14 + 1) :=
  ⟨by simpa using
      (create_fd_port_allocation bindW 10 20 12 (by decide) (by decide)).1 11 (by decide),
   (create_fd_port_allocation (fun _ => false) 10 20 12 (by decide) (by decide)).2.1
     (fun p2 _ _ => rfl),
   (create_fd_port_allocation bindW 10 20 12 (by decide) (by decide)).2.2.1 13
     (by decide) (by decide) (by decide),
   by decide,
   (create_fd_port_allocation bindW 10 20 12 (by decide) (by decide)).2.2.2 (by decide)
     14 15 16 (by decide)⟩

end JanusFtl




